import Mathlib

/-!
Verification of the fixforward core against its design specification.

The development shallowly embeds the Python sources of the repository:
  * `src/fixforward/parsers/{pytest,npm,cargo}_parser.py` (output normalizers),
  * `src/fixforward/classifier.py` (failure classification engine),
  * `src/fixforward/copilot.py` (patch extraction engine),
  * `src/fixforward/verifier.py` (confidence scorer).

Strings are represented as `List Char`.  Python regular expressions are
embedded through a small backtracking matcher (`mre` below) that mirrors
the semantics of `re.search` / `re.finditer` for the pattern features the
sources actually use: literals (case sensitive and insensitive), character
classes, greedy and lazy repetition of classes, optional parts,
alternation, capture groups, and the `$` / `^` anchors with and without
MULTILINE.  Python floats that only ever hold short decimal literals are
modelled as exact rationals; `float(...)` applied to a string (which can
raise `ValueError`) is modelled as `Option ℚ`, and functions that can
reach such a call return `Option` results.
-/

set_option maxRecDepth 20000

abbrev Str := List Char

/-- Whitespace as recognised by Python `str.strip` / `\s` (ASCII range). -/
def wsChar (c : Char) : Bool :=
  c == ' ' || c == '\t' || c == '\n' || c == '\r' || c == Char.ofNat 11 || c == Char.ofNat 12

def wordChar (c : Char) : Bool :=
  c.isAlpha || c.isDigit || c == '_'

/-- The apostrophe / single-quote character. -/
def sqc : Char := Char.ofNat 39

/-- The backtick character. -/
def bqc : Char := Char.ofNat 96

/-- Opening curly brace character. -/
def obr : Char := Char.ofNat 123

/-- Closing curly brace character. -/
def cbr : Char := Char.ofNat 125

/-- Python `str.strip()` (no argument): trim whitespace from both ends. -/
def pyStrip (s : Str) : Str :=
  ((s.dropWhile wsChar).reverse.dropWhile wsChar).reverse

/-- Python `str.strip(c)` for a single character `c`. -/
def stripChar (c0 : Char) (s : Str) : Str :=
  ((s.dropWhile (· == c0)).reverse.dropWhile (· == c0)).reverse

/-- Python `str.strip(cs)` for a set of characters. -/
def stripSet (cs : Str) (s : Str) : Str :=
  ((s.dropWhile (cs.contains ·)).reverse.dropWhile (cs.contains ·)).reverse

/-- Case-sensitive "is this a list-prefix" test. -/
def isPref : Str → Str → Bool
  | [], _ => true
  | _ :: _, [] => false
  | p :: ps, c :: cs => p == c && isPref ps cs

/-- Case-insensitive prefix test (Python `re.IGNORECASE` literal matching). -/
def ciIsPref : Str → Str → Bool
  | [], _ => true
  | _ :: _, [] => false
  | p :: ps, c :: cs => p.toLower == c.toLower && ciIsPref ps cs

/-- `startsWith` for a single character. -/
def startsWithCh (c : Char) : Str → Bool
  | [] => false
  | d :: _ => d == c

/-- Python `str.splitlines()`, restricted to the `\n` line terminator (the
only one the modelled tool output and prompts contain; Python also
recognises `\r` variants); no trailing empty line. -/
def pySplitlinesGo (cur : Str) : Str → List Str
  | [] => if cur.isEmpty then [] else [cur.reverse]
  | c :: t =>
    if c == '\n' then cur.reverse :: pySplitlinesGo [] t
    else pySplitlinesGo (c :: cur) t

def pySplitlines (s : Str) : List Str := pySplitlinesGo [] s

/-- Python `str.splitlines(keepends=True)`, restricted to `\n` likewise. -/
def pySplitKeepGo (cur : Str) : Str → List Str
  | [] => if cur.isEmpty then [] else [cur.reverse]
  | c :: t =>
    if c == '\n' then (('\n' :: cur).reverse) :: pySplitKeepGo [] t
    else pySplitKeepGo (c :: cur) t

def pySplitKeep (s : Str) : List Str := pySplitKeepGo [] s

/-- First occurrence of `sep` in a string: `some (before, after)` on success. -/
def findSub (sep : Str) : Str → Option (Str × Str)
  | [] => if sep.isEmpty then some ([], []) else none
  | c :: t =>
    if isPref sep (c :: t) then some ([], (c :: t).drop sep.length)
    else match findSub sep t with
      | some (b, a) => some (c :: b, a)
      | none => none

/-- Python `sub in s`. -/
def containsSub (sep s : Str) : Bool := (findSub sep s).isSome

/-- Python `str.split(sep)` (with fuel; `sep` is non-empty at all call sites). -/
def splitSubF (sep : Str) : Nat → Str → List Str
  | 0, s => [s]
  | fuel + 1, s =>
    match findSub sep s with
    | none => [s]
    | some (b, a) => b :: splitSubF sep fuel a

def splitSub (sep s : Str) : List Str := splitSubF sep (s.length + 1) s

/-- Python `str.count(sub)` (non-overlapping occurrences). -/
def countSubF (sub : Str) : Nat → Str → Nat
  | 0, _ => 0
  | fuel + 1, s =>
    match findSub sub s with
    | none => 0
    | some (_, a) => 1 + countSubF sub fuel a

def countSub (sub s : Str) : Nat := countSubF sub (s.length + 1) s

/-- Python `sep.flatten(parts)`. -/
def joinSep (sep : Str) : List Str → Str
  | [] => []
  | [x] => x
  | x :: y :: t => x ++ sep ++ joinSep sep (y :: t)

/-- Value of a digit string (`int(...)` on a `\d+` regex group). -/
def digitsToNat (s : Str) : Nat :=
  s.foldl (fun n c => n * 10 + (c.toNat - 48)) 0

/-- Decimal rendering of a natural number (for f-string embeddings). -/
def natToStrGo : Nat → Nat → Str
  | 0, _ => []
  | fuel + 1, n => if n == 0 then [] else natToStrGo fuel (n / 10) ++ [Char.ofNat (48 + n % 10)]

def natToStr (n : Nat) : Str :=
  if n == 0 then ['0'] else natToStrGo (n + 1) n

/-- Python `float(...)` applied to a string drawn from `[\d.]+`: fails
(`ValueError`) when the string has more than one dot or no digit at all;
otherwise the exact decimal value.  Returned as `Option ℚ`. -/
def parseFloatQ (s : Str) : Option ℚ :=
  let ip := s.takeWhile (· != '.')
  let rest := s.dropWhile (· != '.')
  match rest with
  | [] => if s.isEmpty then none else some (digitsToNat ip : ℚ)
  | _ :: fp =>
    if fp.contains '.' then none
    else if ip.isEmpty && fp.isEmpty then none
    else some ((digitsToNat ip : ℚ) + (digitsToNat fp : ℚ) / 10 ^ fp.length)

/-! ## A small regular-expression engine

`RE` is the abstract syntax of the regular-expression fragment used by the
sources; `mre` is a continuation-passing backtracking matcher whose
alternative ordering reproduces Python `re`: leftmost match, greedy
repetition tries longest first, lazy repetition shortest first, `r?` tries
the present branch first, alternation tries left to right. -/

inductive CC where
  | ws | digit | nonWs | wordc | anyNoNl | anyCh | inSet (s : Str)
deriving DecidableEq

def ccMatch : CC → Char → Bool
  | .ws, c => wsChar c
  | .digit, c => c.isDigit
  | .nonWs, c => !wsChar c
  | .wordc, c => wordChar c
  | .anyNoNl, c => c != '\n'
  | .anyCh, _ => true
  | .inSet s, c => s.contains c

inductive RE where
  | eps
  | lit (s : Str)
  | litCI (s : Str)
  | cls (c : CC)
  | starG (c : CC)
  | plusG (c : CC)
  | starL (c : CC)
  | plusL (c : CC)
  | grp (i : Nat) (r : RE)
  | opt (r : RE)
  | alt (a b : RE)
  | cat (a b : RE)
  | eos
  | eolM
  | bolM

abbrev Caps := List (Nat × Str)

/-- The character preceding the current position after consuming `consumed`. -/
def pushPrev (prev : Option Char) (consumed : Str) : Option Char :=
  match consumed.getLast? with
  | some c => some c
  | none => prev

/-- Length of the maximal prefix of `s` of characters in class `c`. -/
def runLen (c : CC) : Str → Nat
  | [] => 0
  | ch :: t => if ccMatch c ch then runLen c t + 1 else 0

/-- Consume exactly `i` characters, then continue with `k`. -/
def takeK (k : Option Char → Str → Caps → Option α)
    (prev : Option Char) (s : Str) (caps : Caps) (i : Nat) : Option α :=
  k (pushPrev prev (s.take i)) (s.drop i) caps

/-- Greedy repetition: try `lo + cnt`, `lo + cnt - 1`, …, `lo` characters. -/
def greedyFrom (k : Option Char → Str → Caps → Option α)
    (prev : Option Char) (s : Str) (caps : Caps) (lo : Nat) : Nat → Option α
  | 0 => takeK k prev s caps lo
  | n + 1 => takeK k prev s caps (lo + n + 1) <|> greedyFrom k prev s caps lo n

/-- Lazy repetition: try `lo`, `lo + 1`, …, `lo + cnt` characters. -/
def lazyFrom (k : Option Char → Str → Caps → Option α)
    (prev : Option Char) (s : Str) (caps : Caps) (lo : Nat) : Nat → Option α
  | 0 => takeK k prev s caps lo
  | n + 1 => takeK k prev s caps lo <|> lazyFrom k prev s caps (lo + 1) n

/-- Match `r` against a prefix of `s` and pass the suffix to `k`;
`prev` is the character just before `s` in the overall subject. -/
def mre (r : RE) (prev : Option Char) (s : Str) (caps : Caps)
    (k : Option Char → Str → Caps → Option α) : Option α :=
  match r with
  | .eps => k prev s caps
  | .lit l =>
    if isPref l s then k (pushPrev prev (s.take l.length)) (s.drop l.length) caps else none
  | .litCI l =>
    if ciIsPref l s then k (pushPrev prev (s.take l.length)) (s.drop l.length) caps else none
  | .cls c =>
    match s with
    | [] => none
    | ch :: t => if ccMatch c ch then k (some ch) t caps else none
  | .starG c => greedyFrom k prev s caps 0 (runLen c s)
  | .plusG c =>
    match runLen c s with
    | 0 => none
    | n + 1 => greedyFrom k prev s caps 1 n
  | .starL c => lazyFrom k prev s caps 0 (runLen c s)
  | .plusL c =>
    match runLen c s with
    | 0 => none
    | n + 1 => lazyFrom k prev s caps 1 n
  | .grp i r1 =>
    mre r1 prev s caps fun p2 rest c2 =>
      k p2 rest ((i, s.take (s.length - rest.length)) :: c2)
  | .opt r1 => mre r1 prev s caps k <|> k prev s caps
  | .alt a b => mre a prev s caps k <|> mre b prev s caps k
  | .cat a b => mre a prev s caps fun p2 rest c2 => mre b p2 rest c2 k
  | .eos => if s.isEmpty || s == ['\n'] then k prev s caps else none
  | .eolM => if s.isEmpty || s.headD ' ' == '\n' then k prev s caps else none
  | .bolM => if prev.isNone || prev == some '\n' then k prev s caps else none

structure MRes where
  start : Nat
  mat : Str
  rest : Str
  caps : Caps
deriving DecidableEq

/-- `re.search` from a given position: leftmost match wins. -/
def searchFrom (r : RE) : Option Char → Str → Nat → Option MRes
  | prev, s, pos =>
    match mre r prev s [] (fun _ rest caps => some (rest, caps)) with
    | some (rest, caps) => some ⟨pos, s.take (s.length - rest.length), rest, caps⟩
    | none =>
      match s with
      | [] => none
      | c :: t => searchFrom r (some c) t (pos + 1)

def reSearch (r : RE) (s : Str) : Option MRes := searchFrom r none s 0

/-- `re.finditer`: non-overlapping matches, scanning from each match end. -/
def finditFrom (r : RE) : Nat → Option Char → Str → Nat → List MRes
  | 0, _, _, _ => []
  | fuel + 1, prev, s, pos =>
    match searchFrom r prev s pos with
    | none => []
    | some m =>
      if m.mat.isEmpty then
        m :: (match m.rest with
          | [] => []
          | c :: t => finditFrom r fuel (some c) t (m.start + 1))
      else m :: finditFrom r fuel (pushPrev prev m.mat) m.rest (m.start + m.mat.length)

def reFindAll (r : RE) (s : Str) : List MRes := finditFrom r (s.length + 1) none s 0

/-- `m.group(i)` for `i ≥ 1` (`none` when the group did not participate). -/
def capGet (caps : Caps) (i : Nat) : Option Str :=
  (caps.find? (·.1 == i)).map (·.2)

/-- Helpers for writing patterns. -/
def rstr (s : String) : RE := .lit s.data

def rci (s : String) : RE := .litCI s.data

def rcat : List RE → RE
  | [] => .eps
  | [r] => r
  | r :: s :: t => .cat r (rcat (s :: t))

def digitDot : CC := .inSet "0123456789.".data

-- sanity checks of the engine against Python `re` behaviour (concrete)
example :
    (reSearch (rcat [.grp 1 (.plusG .digit), .plusG .ws, rstr "failed"])
        "1 failed, 4 passed".data).map (fun m => capGet m.caps 1)
      = some (some "1".data) := by decide

example :
    reSearch (rcat [.grp 1 (.plusG .digit), .plusG .ws, rstr "error"])
        "1 failed, 4 passed".data = none := by decide

example :
    (reSearch (rcat [rci "No module named ", .lit [sqc], .grp 1 (.plusG .nonWs), .lit [sqc]])
        ("no module named ".data ++ [sqc] ++ "foo".data ++ [sqc])).map (fun m => capGet m.caps 1)
      = some (some "foo".data) := by decide

/-! ## Shared result model (`src/fixforward/detector.py`) -/

structure TestFailure where
  test_name : Str
  file_path : Str
  line_number : Option Nat
  error_message : Str
  full_output : Str
deriving DecidableEq

structure TestResult where
  passed : Bool
  exit_code : Int
  raw_output : Str
  total_tests : Nat
  passed_count : Nat
  failed_count : Nat
  failures : List TestFailure
  duration_seconds : ℚ
deriving DecidableEq

/-! ## Confidence scorer (`src/fixforward/verifier.py`) -/

/-- Python `round(x, 2)`.  Python rounds the nearest binary double half to
even; on these exact rationals we model it as rounding half up
(`⌊100 x + 1/2⌋ / 100`); every theorem below is insensitive to the
tie-breaking rule. -/
def roundTo2 (q : ℚ) : ℚ := ((⌊100 * q + 1 / 2⌋ : ℤ) : ℚ) / 100

/-- The first assignment of `score` in `_calculate_confidence` (base
score from the pass / partial-fix / no-improvement trichotomy). -/
def baseScore (original fixed : TestResult) : ℚ :=
  if fixed.passed then 0.90
  else if fixed.failed_count < original.failed_count then
    if 0 < original.failed_count then
      0.30 + ((original.failed_count : ℚ) - (fixed.failed_count : ℚ))
          / (original.failed_count : ℚ) * 0.50
    else 0.30
  else 0.10

/-- `score` after the new-failure penalty reassignment. -/
def penScore (original fixed : TestResult) : ℚ :=
  if original.failed_count < fixed.failed_count then
    max 0
      (baseScore original fixed
        - 0.20 * ((fixed.failed_count : ℚ) - (original.failed_count : ℚ)))
  else baseScore original fixed

/-- `score` after the maintained-total bonus reassignment, i.e. the value
handed to the final `round(score, 2)`. -/
def confidencePre (original fixed : TestResult) : ℚ :=
  if original.total_tests ≤ fixed.total_tests then
    min 1 (penScore original fixed + 0.05)
  else penScore original fixed

/-- Embedding of `_calculate_confidence(original, fixed)`. -/
def calculateConfidence (original fixed : TestResult) : ℚ :=
  roundTo2 (confidencePre original fixed)

/-- The scoring algorithm exactly as the specification words it
(§4.4 steps 1–6): step 1 base 0.90, step 2 base
`0.30 + 0.50 × (fixedCount / before.failed_count)` (0.30 when
`before.failed_count == 0`), step 3 base 0.10, step 4 penalty 0.20 per
newly introduced failure clamped at 0.0, step 5 bonus 0.05 clamped at
1.0 when `after.total >= before.total`, step 6 round to 2 decimals. -/
def specConfidence (before after : TestResult) : ℚ :=
  let base : ℚ :=
    if after.passed then 0.90
    else if after.failed_count < before.failed_count then
      if before.failed_count == 0 then 0.30
      else
        0.30 + 0.50 * (((before.failed_count : ℚ) - (after.failed_count : ℚ))
            / (before.failed_count : ℚ))
    else 0.10
  let afterPenalty : ℚ :=
    if before.failed_count < after.failed_count then
      max 0 (base - 0.20 * ((after.failed_count : ℚ) - (before.failed_count : ℚ)))
    else base
  let afterBonus : ℚ :=
    if before.total_tests ≤ after.total_tests then min 1 (afterPenalty + 0.05)
    else afterPenalty
  roundTo2 afterBonus

/-- Embedding of `_summary_diff(original, fixed)`. -/
def summaryDiff (original fixed : TestResult) : Str :=
  let l1 := "Before: ".data ++ natToStr original.failed_count ++ " failed / ".data
      ++ natToStr original.passed_count ++ " passed / ".data
      ++ natToStr original.total_tests ++ " total".data
  let l2 := "After:  ".data ++ natToStr fixed.failed_count ++ " failed / ".data
      ++ natToStr fixed.passed_count ++ " passed / ".data
      ++ natToStr fixed.total_tests ++ " total".data
  let l3 :=
    if fixed.failed_count < original.failed_count then
      "Fixed:  ".data ++ natToStr (original.failed_count - fixed.failed_count)
        ++ " test(s)".data
    else if original.failed_count < fixed.failed_count then
      "New failures: ".data ++ natToStr (fixed.failed_count - original.failed_count)
        ++ " test(s)".data
    else "No change in failure count.".data
  joinSep "\n".data [l1, l2, l3]

structure VerifyResult where
  original : TestResult
  after_fix : TestResult
  all_passing : Bool
  fixed_count : Nat
  new_failure_count : Nat
  confidence : ℚ
  diff : Str
deriving DecidableEq

/-- Embedding of `verify(project_path, ecosystem, original_result)`.
Running the test suite (`run_tests`) is external I/O; the model takes its
result `new_result` as a parameter and performs the comparison the
function body performs. -/
def verify (original_result new_result : TestResult) : VerifyResult :=
  let fixed_count := max 0 (original_result.failed_count - new_result.failed_count)
  { original := original_result
    after_fix := new_result
    all_passing := new_result.passed
    fixed_count := fixed_count
    new_failure_count := new_result.failed_count
    confidence := calculateConfidence original_result new_result
    diff := summaryDiff original_result new_result }

/-! ## Pytest output normalizer (`src/fixforward/parsers/pytest_parser.py`) -/

/-- `SUMMARY_RE = =+\s*(.+?)\s+in\s+([\d.]+)s\s*=+` -/
def summaryRE : RE :=
  rcat [.plusG (.inSet "=".data), .starG .ws, .grp 1 (.plusL .anyNoNl),
        .plusG .ws, rstr "in", .plusG .ws, .grp 2 (.plusG digitDot),
        rstr "s", .starG .ws, .plusG (.inSet "=".data)]

/-- `FAILED_COUNT_RE = (\d+)\s+failed` -/
def failedCountRE : RE := rcat [.grp 1 (.plusG .digit), .plusG .ws, rstr "failed"]

/-- `PASSED_COUNT_RE = (\d+)\s+passed` -/
def passedCountRE : RE := rcat [.grp 1 (.plusG .digit), .plusG .ws, rstr "passed"]

/-- `ERROR_COUNT_RE = (\d+)\s+error` -/
def errorCountRE : RE := rcat [.grp 1 (.plusG .digit), .plusG .ws, rstr "error"]

/-- `SHORT_SUMMARY_RE = =+\s*short test summary info\s*=+` -/
def shortSummaryRE : RE :=
  rcat [.plusG (.inSet "=".data), .starG .ws, rstr "short test summary info",
        .starG .ws, .plusG (.inSet "=".data)]

/-- `FAILED_LINE_RE = FAILED\s+(.+?)::(.+?)(?:\s*-\s*(.*))?$` -/
def failedLineRE : RE :=
  rcat [rstr "FAILED", .plusG .ws, .grp 1 (.plusL .anyNoNl), rstr "::",
        .grp 2 (.plusL .anyNoNl),
        .opt (rcat [.starG .ws, rstr "-", .starG .ws, .grp 3 (.starG .anyNoNl)]),
        .eos]

/-- `ERROR_LINE_RE = ERROR\s+(.+?)::(.+?)(?:\s*-\s*(.*))?$` -/
def errorLineRE : RE :=
  rcat [rstr "ERROR", .plusG .ws, .grp 1 (.plusL .anyNoNl), rstr "::",
        .grp 2 (.plusL .anyNoNl),
        .opt (rcat [.starG .ws, rstr "-", .starG .ws, .grp 3 (.starG .anyNoNl)]),
        .eos]

/-- `ERROR_COLLECT_RE = ERROR\s+(?:collecting\s+)?(\S+\.py)\s*$` -/
def errorCollectRE : RE :=
  rcat [rstr "ERROR", .plusG .ws, .opt (rcat [rstr "collecting", .plusG .ws]),
        .grp 1 (rcat [.plusG .nonWs, rstr ".py"]), .starG .ws, .eos]

/-- `TRACEBACK_FILE_RE = (\S+\.py):(\d+):` -/
def tracebackFileRE : RE :=
  rcat [.grp 1 (rcat [.plusG .nonWs, rstr ".py"]), rstr ":",
        .grp 2 (.plusG .digit), rstr ":"]

/-- The reversed-scan summary extraction: the last line with a
`SUMMARY_RE` match supplies `(summary_text, duration_string)`. -/
def summaryOf (line : Str) : Option (Str × Str) :=
  match reSearch summaryRE line with
  | none => none
  | some m =>
    match capGet m.caps 1, capGet m.caps 2 with
    | some g1, some g2 => some (g1, g2)
    | _, _ => none

def findLastSummary : List Str → Option (Str × Str)
  | [] => none
  | l :: t =>
    match findLastSummary t with
    | some r => some r
    | none => summaryOf l

/-- Search for `r` and return `int(m.group(1))` on success. -/
def natGroupSearch (r : RE) (s : Str) : Option Nat :=
  match reSearch r s with
  | some m => (capGet m.caps 1).map digitsToNat
  | none => none

/-- `_find_line_number(lines, file_path, test_name)` (the `file_path`
parameter is unused in the source body as well). -/
def findLineNumGo (tn : Str) : Bool → Option Nat → List Str → Option Nat
  | _, last, [] => last
  | inTb, last, line :: rest =>
    if containsSub tn line
        && (containsSub "FAILED".data line || containsSub "____".data line) then
      findLineNumGo tn true last rest
    else if inTb then
      let last2 :=
        match reSearch tracebackFileRE line with
        | some m => (capGet m.caps 2).map digitsToNat
        | none => last
      if startsWithCh '=' line || (startsWithCh '_' line && 10 < line.length) then last2
      else findLineNumGo tn inTb last2 rest
    else findLineNumGo tn inTb last rest

def findLineNumber (lines : List Str) (_filePath tn : Str) : Option Nat :=
  findLineNumGo tn false none lines

/-- `_extract_traceback(lines, test_name)`. -/
def tbHeader (tn line : Str) : Bool :=
  containsSub ("__ ".data ++ tn ++ " __".data) line
    || containsSub ("__".data ++ tn ++ "__".data) (line.filter (· != ' '))

def extractTbGo (tn : Str) : Bool → List Str → List Str
  | _, [] => []
  | cap, line :: rest =>
    if tbHeader tn line then extractTbGo tn true rest
    else if cap then
      if startsWithCh '=' line && 10 < line.length then []
      else if startsWithCh '_' line && !(stripSet "_ ".data line).isEmpty
          && !containsSub tn line then []
      else line :: extractTbGo tn cap rest
    else extractTbGo tn cap rest

def extractTraceback (lines : List Str) (tn : Str) : Str :=
  joinSep "\n".data (extractTbGo tn false lines)

/-- Build the failure for one `FAILED file::test - msg` line. -/
def failedLineFailure (allLines : List Str) (line : Str) : Option TestFailure :=
  match reSearch failedLineRE line with
  | none => none
  | some m =>
    let fp := (capGet m.caps 1).getD []
    let tn := (capGet m.caps 2).getD []
    let em := (capGet m.caps 3).getD []
    some { test_name := tn, file_path := fp
           line_number := findLineNumber allLines fp tn
           error_message := pyStrip em
           full_output := extractTraceback allLines tn }

/-- Build the failure for one `ERROR file::test - msg` line. -/
def errorLineFailure (line : Str) : Option TestFailure :=
  match reSearch errorLineRE line with
  | none => none
  | some m =>
    let fp := (capGet m.caps 1).getD []
    let tn := (capGet m.caps 2).getD []
    let em := (capGet m.caps 3).getD []
    some { test_name := tn, file_path := fp, line_number := none
           error_message := pyStrip em, full_output := [] }

/-- The short-test-summary scan (`in_summary` state machine). -/
def collectShort (allLines : List Str) : Bool → List Str → List TestFailure
  | _, [] => []
  | inSum, line :: rest =>
    if (reSearch shortSummaryRE line).isSome then collectShort allLines true rest
    else if inSum then
      ((failedLineFailure allLines line).toList ++ (errorLineFailure line).toList)
        ++ collectShort allLines inSum rest
    else collectShort allLines inSum rest

/-- Whole-body scan for `FAILED` lines (used when the short summary gave
nothing but the summary line reported failures). -/
def collectBody (allLines : List Str) : List Str → List TestFailure
  | [] => []
  | line :: rest =>
    (failedLineFailure allLines line).toList ++ collectBody allLines rest

/-- `_extract_collection_error(lines, file_path)`. -/
def collectionErrGo (fp : Str) : Bool → List Str → Str → List Str → Str × List Str
  | _, acc, emsg, [] => (emsg, acc.reverse)
  | capturing, acc, emsg, line :: rest =>
    if containsSub ("ERROR collecting ".data ++ fp) line && containsSub "___".data line then
      collectionErrGo fp true acc emsg rest
    else if capturing then
      if startsWithCh '=' line && 10 < line.length then (emsg, acc.reverse)
      else if startsWithCh '_' line && containsSub "ERROR collecting".data line then
        (emsg, acc.reverse)
      else
        let stripped := pyStrip line
        let emsg2 :=
          if isPref "E   ".data stripped || isPref "E\t".data stripped then
            pyStrip (stripped.drop 1)
          else emsg
        collectionErrGo fp capturing (line :: acc) emsg2 rest
    else collectionErrGo fp capturing acc emsg rest

def extractCollectionError (lines : List Str) (fp : Str) : Str × Str :=
  let (emsg, res) := collectionErrGo fp false [] [] lines
  let emsg2 := if emsg.isEmpty then "(collection error)".data else emsg
  (emsg2, joinSep "\n".data (res.drop (res.length - 20)))

/-- The collection-error scan (de-duplicated by file, capped at 5). -/
def collectCollect (allLines : List Str) : List Str → Nat → List Str → List TestFailure
  | _, _, [] => []
  | seen, cnt, line :: rest =>
    match reSearch errorCollectRE line with
    | none => collectCollect allLines seen cnt rest
    | some m =>
      let fp := (capGet m.caps 1).getD []
      if seen.contains fp then collectCollect allLines seen cnt rest
      else
        let (emsg, fout) := extractCollectionError allLines fp
        let tf : TestFailure :=
          { test_name := "collect: ".data ++ fp, file_path := fp
            line_number := none, error_message := emsg, full_output := fout }
        if 5 ≤ cnt + 1 then [tf]
        else tf :: collectCollect allLines (fp :: seen) (cnt + 1) rest

/-- All failure records extracted by `parse`, given the summary-line
failed/error counts (the steps at lines 51–126 of the source). -/
def pytestFailures (lines : List Str) (failed0 error0 : Nat) : List TestFailure :=
  let fs := collectShort lines false lines
  let fs := if fs.isEmpty && 0 < failed0 then collectBody lines lines else fs
  if fs.isEmpty && 0 < error0 then collectCollect lines [] 0 lines else fs

/-- The fallback per-line count loop (lines 129–136 of the source). -/
def fallbackStep (cnts : Nat × Nat × Nat) (line : Str) : Nat × Nat × Nat :=
  let p := cnts.1
  let f := cnts.2.1
  let e := cnts.2.2
  if containsSub "PASSED".data line then (p + 1, f, e)
  else if containsSub "FAILED".data line then (p, f + 1, e)
  else if containsSub "ERROR".data line && containsSub "::".data line then (p, f, e + 1)
  else (p, f, e)

/-- Embedding of `pytest_parser.parse(raw_output)`.  `none` models the
`ValueError` that `float(m.group(2))` raises when the captured duration
text is not a valid float literal (e.g. `"1.2.3"`). -/
def pytestParse (raw : Str) : Option TestResult :=
  let lines := pySplitlines raw
  let counts : Option (Nat × Nat × Nat × ℚ) :=
    match findLastSummary lines with
    | none => some (0, 0, 0, 0)
    | some (stext, dstr) =>
      match parseFloatQ dstr with
      | none => none
      | some d =>
        let f := (natGroupSearch failedCountRE stext).getD 0
        let p := (natGroupSearch passedCountRE stext).getD 0
        let e := (natGroupSearch errorCountRE stext).getD 0
        some (f, p, e, d)
  match counts with
  | none => none
  | some (failed0, passed0, error0, duration) =>
    let failures := pytestFailures lines failed0 error0
    let cnts :=
      if passed0 == 0 && failed0 == 0 then
        lines.foldl fallbackStep (passed0, failed0, error0)
      else (passed0, failed0, error0)
    let passedC := cnts.1
    let failedC := cnts.2.1
    let errorC := cnts.2.2
    let total := passedC + failedC + errorC
    let failedFinal := failedC + errorC
    some { passed := failedFinal == 0, exit_code := 0, raw_output := raw
           total_tests := total, passed_count := passedC, failed_count := failedFinal
           failures := failures, duration_seconds := duration }

-- concrete sanity checks of the pytest normalizer
example :
    (pytestParse "=== 1 failed, 4 passed in 0.20s ===".data).map
        (fun r => (r.total_tests, r.passed_count, r.failed_count, r.passed))
      = some (5, 4, 1, false) := by decide

example : pytestParse "=== broken in 1.2.3s ===".data = none := by decide

/-! ## npm/Jest/Mocha normalizer (`src/fixforward/parsers/npm_parser.py`) -/

/-- `JEST_SUMMARY_RE = Tests:\s+(?:(\d+)\s+failed\s*,?\s*)?(?:(\d+)\s+passed\s*,?\s*)?(\d+)\s+total` -/
def jestSummaryRE : RE :=
  rcat [rstr "Tests:", .plusG .ws,
        .opt (rcat [.grp 1 (.plusG .digit), .plusG .ws, rstr "failed", .starG .ws,
                    .opt (rstr ","), .starG .ws]),
        .opt (rcat [.grp 2 (.plusG .digit), .plusG .ws, rstr "passed", .starG .ws,
                    .opt (rstr ","), .starG .ws]),
        .grp 3 (.plusG .digit), .plusG .ws, rstr "total"]

/-- `JEST_FAIL_FILE_RE = FAIL\s+(.+?)$` (MULTILINE) -/
def jestFailFileRE : RE :=
  rcat [rstr "FAIL", .plusG .ws, .grp 1 (.plusL .anyNoNl), .eolM]

/-- `JEST_TEST_FAIL_RE = \s+[✕×✗]\s+(.+?)(?:\s+\((\d+)\s*ms\))?$` (MULTILINE) -/
def jestTestFailRE : RE :=
  rcat [.plusG .ws, .cls (.inSet "✕×✗".data), .plusG .ws, .grp 1 (.plusL .anyNoNl),
        .opt (rcat [.plusG .ws, rstr "(", .grp 2 (.plusG .digit), .starG .ws, rstr "ms)"]),
        .eolM]

/-- `JEST_EXPECT_RE = Expected:?\s*(.+?)$` (MULTILINE) -/
def jestExpectRE : RE :=
  rcat [rstr "Expected", .opt (rstr ":"), .starG .ws, .grp 1 (.plusL .anyNoNl), .eolM]

/-- `JEST_RECEIVED_RE = Received:?\s*(.+?)$` (MULTILINE) -/
def jestReceivedRE : RE :=
  rcat [rstr "Received", .opt (rstr ":"), .starG .ws, .grp 1 (.plusL .anyNoNl), .eolM]

/-- `JEST_AT_RE = at\s+.*?\((.+?):(\d+):\d+\)` -/
def jestAtRE : RE :=
  rcat [rstr "at", .plusG .ws, .starL .anyNoNl, rstr "(", .grp 1 (.plusL .anyNoNl),
        rstr ":", .grp 2 (.plusG .digit), rstr ":", .plusG .digit, rstr ")"]

/-- `JEST_TIME_RE = Time:\s+([\d.]+)\s*s` -/
def jestTimeRE : RE :=
  rcat [rstr "Time:", .plusG .ws, .grp 1 (.plusG digitDot), .starG .ws, rstr "s"]

/-- `MOCHA_PASSING_RE = (\d+)\s+passing` -/
def mochaPassingRE : RE := rcat [.grp 1 (.plusG .digit), .plusG .ws, rstr "passing"]

/-- `MOCHA_FAILING_RE = (\d+)\s+failing` -/
def mochaFailingRE : RE := rcat [.grp 1 (.plusG .digit), .plusG .ws, rstr "failing"]

/-- `MOCHA_FAIL_TITLE_RE = ^\s+\d+\)\s+(.+)$` (MULTILINE) -/
def mochaFailTitleRE : RE :=
  rcat [.bolM, .plusG .ws, .plusG .digit, rstr ")", .plusG .ws,
        .grp 1 (.plusG .anyNoNl), .eolM]

/-- `MOCHA_ERROR_RE = ^\s+(AssertionError|Error|TypeError|ReferenceError).+$` (MULTILINE) -/
def mochaErrorRE : RE :=
  rcat [.bolM, .plusG .ws,
        .grp 1 (.alt (rstr "AssertionError")
                (.alt (rstr "Error") (.alt (rstr "TypeError") (rstr "ReferenceError")))),
        .plusG .anyNoNl, .eolM]

/-- One Jest failing-test record: bounded 1000-character window after the
test title supplies location and expected/received text. -/
def jestFailureOf (currentFile : Str) (m : MRes) : TestFailure :=
  let tn := pyStrip ((capGet m.caps 1).getD [])
  let chunk := m.rest.take 1000
  let (fp, ln) :=
    match reSearch jestAtRE chunk with
    | some am => ((capGet am.caps 1).getD [], (capGet am.caps 2).map digitsToNat)
    | none => (currentFile, none)
  let emsg :=
    match reSearch jestExpectRE chunk, reSearch jestReceivedRE chunk with
    | some em, some rm =>
      "Expected ".data ++ (capGet em.caps 1).getD []
        ++ ", received ".data ++ (capGet rm.caps 1).getD []
    | some em, none => "Expected ".data ++ (capGet em.caps 1).getD []
    | _, _ => []
  { test_name := tn, file_path := fp, line_number := ln
    error_message := emsg, full_output := chunk.take 500 }

/-- `_parse_jest(raw_output, summary_match)` (`none` models the
`ValueError` that `float(...)` raises on a malformed `Time:` capture). -/
def parseJest (raw : Str) (m : MRes) : Option TestResult :=
  let failedC := digitsToNat ((capGet m.caps 1).getD ['0'])
  let passedC := digitsToNat ((capGet m.caps 2).getD ['0'])
  let total := digitsToNat ((capGet m.caps 3).getD ['0'])
  let durOpt : Option ℚ :=
    match reSearch jestTimeRE raw with
    | some tm =>
      match parseFloatQ ((capGet tm.caps 1).getD []) with
      | none => none
      | some d => some d
    | none => some 0
  match durOpt with
  | none => none
  | some duration =>
    let currentFile :=
      match (reFindAll jestFailFileRE raw).getLast? with
      | some fm => pyStrip ((capGet fm.caps 1).getD [])
      | none => []
    let failures := (reFindAll jestTestFailRE raw).map (jestFailureOf currentFile)
    some { passed := failedC == 0, exit_code := if 0 < failedC then 1 else 0
           raw_output := raw, total_tests := total, passed_count := passedC
           failed_count := failedC, failures := failures, duration_seconds := duration }

/-- One Mocha failing-test record. -/
def mochaFailureOf (m : MRes) : TestFailure :=
  let tn := pyStrip ((capGet m.caps 1).getD [])
  let chunk := m.rest.take 1000
  let emsg :=
    match reSearch mochaErrorRE chunk with
    | some em => pyStrip em.mat
    | none => []
  let (fp, ln) :=
    match reSearch jestAtRE chunk with
    | some am => ((capGet am.caps 1).getD [], (capGet am.caps 2).map digitsToNat)
    | none => ([], none)
  { test_name := tn, file_path := fp, line_number := ln
    error_message := emsg, full_output := chunk.take 500 }

/-- `_parse_mocha(raw_output, pass_match, fail_match)`. -/
def parseMocha (raw : Str) (mp mf : Option MRes) : TestResult :=
  let passedC := match mp with
    | some m => digitsToNat ((capGet m.caps 1).getD ['0'])
    | none => 0
  let failedC := match mf with
    | some m => digitsToNat ((capGet m.caps 1).getD ['0'])
    | none => 0
  let failures := (reFindAll mochaFailTitleRE raw).map mochaFailureOf
  { passed := failedC == 0, exit_code := if 0 < failedC then 1 else 0
    raw_output := raw, total_tests := passedC + failedC, passed_count := passedC
    failed_count := failedC, failures := failures, duration_seconds := 0 }

/-- Embedding of `npm_parser.parse(raw_output)`. -/
def npmParse (raw : Str) : Option TestResult :=
  match reSearch jestSummaryRE raw with
  | some m => parseJest raw m
  | none =>
    let mp := reSearch mochaPassingRE raw
    let mf := reSearch mochaFailingRE raw
    if mp.isSome || mf.isSome then some (parseMocha raw mp mf)
    else
      let failedB := containsSub "FAIL".data raw || containsSub "ERR!".data raw
          || containsSub "Error".data raw
      some { passed := !failedB, exit_code := if failedB then 1 else 0
             raw_output := raw, total_tests := 0, passed_count := 0
             failed_count := if failedB then 1 else 0
             failures :=
               if failedB then
                 [{ test_name := "<unknown>".data, file_path := []
                    line_number := none, error_message := raw.take 500
                    full_output := raw }]
               else []
             duration_seconds := 0 }

/-! ## Cargo normalizer (`src/fixforward/parsers/cargo_parser.py`) -/

/-- `SUMMARY_RE = test result:\s+(ok|FAILED)\.\s+(\d+)\s+passed;\s+(\d+)\s+failed;\s+(\d+)\s+ignored;` -/
def cargoSummaryRE : RE :=
  rcat [rstr "test result:", .plusG .ws, .grp 1 (.alt (rstr "ok") (rstr "FAILED")),
        rstr ".", .plusG .ws, .grp 2 (.plusG .digit), .plusG .ws, rstr "passed;",
        .plusG .ws, .grp 3 (.plusG .digit), .plusG .ws, rstr "failed;",
        .plusG .ws, .grp 4 (.plusG .digit), .plusG .ws, rstr "ignored;"]

/-- `PANICKED_RE = thread\s+'(.+?)'\s+panicked\s+at\s+'?(.+?)'?,?\s+(.+?):(\d+)` -/
def panickedRE : RE :=
  rcat [rstr "thread", .plusG .ws, .lit [sqc], .grp 1 (.plusL .anyNoNl), .lit [sqc],
        .plusG .ws, rstr "panicked", .plusG .ws, rstr "at", .plusG .ws,
        .opt (.lit [sqc]), .grp 2 (.plusL .anyNoNl), .opt (.lit [sqc]),
        .opt (rstr ","), .plusG .ws, .grp 3 (.plusL .anyNoNl), rstr ":",
        .grp 4 (.plusG .digit)]

/-- `PANICKED_ALT_RE = thread\s+'(.+?)'\s+panicked\s+at\s+(.+?):(\d+):\d+:\s*\n\s*(.+)` -/
def panickedAltRE : RE :=
  rcat [rstr "thread", .plusG .ws, .lit [sqc], .grp 1 (.plusL .anyNoNl), .lit [sqc],
        .plusG .ws, rstr "panicked", .plusG .ws, rstr "at", .plusG .ws,
        .grp 2 (.plusL .anyNoNl), rstr ":", .grp 3 (.plusG .digit), rstr ":",
        .plusG .digit, rstr ":", .starG .ws, rstr "\n", .starG .ws,
        .grp 4 (.plusG .anyNoNl)]

/-- `TEST_FAIL_RE = ^test\s+(\S+)\s+\.\.\.\s+FAILED$` (MULTILINE) -/
def cargoTestFailRE : RE :=
  rcat [.bolM, rstr "test", .plusG .ws, .grp 1 (.plusG .nonWs), .plusG .ws,
        rstr "...", .plusG .ws, rstr "FAILED", .eolM]

/-- `ASSERTION_RE = assertion.*failed.*\n\s+left:\s*`(.+?)`\s*\n\s+right:\s*`(.+?)`` -/
def cargoAssertionRE : RE :=
  rcat [rstr "assertion", .starG .anyNoNl, rstr "failed", .starG .anyNoNl,
        rstr "\n", .plusG .ws, rstr "left:", .starG .ws, .lit [bqc],
        .grp 1 (.plusL .anyNoNl), .lit [bqc], .starG .ws, rstr "\n", .plusG .ws,
        rstr "right:", .starG .ws, .lit [bqc], .grp 2 (.plusL .anyNoNl), .lit [bqc]]

/-- `_extract_stdout(raw_output, test_name)`. -/
def stdoutHeader (tn shortName line : Str) : Bool :=
  containsSub ("---- ".data ++ tn ++ " stdout ----".data) line
    || containsSub ("---- ".data ++ shortName ++ " stdout ----".data) line

def extractStdoutGo (tn shortName : Str) : Bool → List Str → List Str
  | _, [] => []
  | cap, line :: rest =>
    if stdoutHeader tn shortName line then extractStdoutGo tn shortName true rest
    else if cap then
      if isPref "----".data line || isPref "note:".data line then []
      else line :: extractStdoutGo tn shortName cap rest
    else extractStdoutGo tn shortName cap rest

def extractStdout (raw : Str) (tn : Str) : Str :=
  let shortName :=
    if containsSub "::".data tn then (splitSub "::".data tn).getLastD tn else tn
  joinSep "\n".data (extractStdoutGo tn shortName false (pySplitlines raw))

/-- One failure from the primary panic pattern (with the assertion-detail
refinement of the error message). -/
def cargoPanicFailure (raw : Str) (m : MRes) : TestFailure :=
  let tn := (capGet m.caps 1).getD []
  let emsg := (capGet m.caps 2).getD []
  let fp := (capGet m.caps 3).getD []
  let ln := (capGet m.caps 4).map digitsToNat
  let fout := extractStdout raw tn
  let emsg2 :=
    match reSearch cargoAssertionRE fout with
    | some am =>
      "left: ".data ++ (capGet am.caps 1).getD [] ++ ", right: ".data
        ++ (capGet am.caps 2).getD []
    | none => emsg
  { test_name := tn, file_path := fp, line_number := ln
    error_message := emsg2, full_output := fout }

/-- One failure from the alternative panic pattern. -/
def cargoAltFailure (raw : Str) (m : MRes) : TestFailure :=
  let tn := (capGet m.caps 1).getD []
  let fp := (capGet m.caps 2).getD []
  let ln := (capGet m.caps 3).map digitsToNat
  let emsg := pyStrip ((capGet m.caps 4).getD [])
  { test_name := tn, file_path := fp, line_number := ln
    error_message := emsg, full_output := extractStdout raw tn }

/-- One failure from the bare `test ... FAILED` fallback. -/
def cargoBareFailure (raw : Str) (m : MRes) : TestFailure :=
  let tn := (capGet m.caps 1).getD []
  { test_name := tn, file_path := [], line_number := none
    error_message := "Test failed (see raw output)".data
    full_output := extractStdout raw tn }

/-- Embedding of `cargo_parser.parse(raw_output)` (a total function: the
source only ever applies `int` to `\d+` captures). -/
def cargoParse (raw : Str) : TestResult :=
  let cnts :=
    match reSearch cargoSummaryRE raw with
    | some m =>
      let p := digitsToNat ((capGet m.caps 2).getD [])
      let f := digitsToNat ((capGet m.caps 3).getD [])
      let ig := digitsToNat ((capGet m.caps 4).getD [])
      (p, f, p + f + ig)
    | none =>
      let p := countSub "... ok".data raw
      let f := countSub "... FAILED".data raw
      (p, f, p + f)
  let passedC := cnts.1
  let failedC := cnts.2.1
  let total := cnts.2.2
  let failures := (reFindAll panickedRE raw).map (cargoPanicFailure raw)
  let failures :=
    if failures.isEmpty then (reFindAll panickedAltRE raw).map (cargoAltFailure raw)
    else failures
  let failures :=
    if failures.isEmpty && 0 < failedC then
      (reFindAll cargoTestFailRE raw).map (cargoBareFailure raw)
    else failures
  { passed := failedC == 0, exit_code := 0, raw_output := raw, total_tests := total
    passed_count := passedC, failed_count := failedC, failures := failures
    duration_seconds := 0 }

-- concrete sanity checks of the npm and cargo normalizers
example :
    (npmParse "Tests: 2 failed, 3 passed, 5 total".data).map
        (fun r => (r.total_tests, r.passed_count, r.failed_count, r.passed))
      = some (5, 3, 2, false) := by decide

example :
    (cargoParse "test result: FAILED. 3 passed; 1 failed; 0 ignored;".data).total_tests
      = 4 := by decide

/-! ## Classification engine (`src/fixforward/classifier.py`)

Every pattern is searched with `re.IGNORECASE`, so literal text uses the
case-insensitive `litCI` constructor. -/

inductive FailureCategory where
  | syntax_error | dependency | env_mismatch | api_change
  | lint | flaky_test | assertion | unknown
deriving DecidableEq

structure ClassifiedFailure where
  failure : TestFailure
  category : FailureCategory
  confidence : ℚ
  summary : Str
deriving DecidableEq

/-- The five syntax-error patterns, with group count and summary template. -/
def syntaxPatterns : List (RE × Nat × Str) :=
  [ (rcat [rci "SyntaxError:", .starG .ws, .grp 1 (.plusG .anyNoNl)], 1,
     "Syntax error: {0}".data),
    (rcat [rci "IndentationError:", .starG .ws, .grp 1 (.plusG .anyNoNl)], 1,
     "Indentation error: {0}".data),
    (rcat [rci "Unexpected token", .starG .ws, .grp 1 (.plusG .anyNoNl)], 1,
     "Unexpected token: {0}".data),
    (rci "parse error", 0, "Parse error".data),
    (rcat [rci "expected", .plusG .ws, .plusG .anyNoNl, rstr ",", .plusG .ws,
           rci "found", .plusG .ws, .grp 1 (.plusG .anyNoNl)], 1,
     "Expected/found mismatch: {0}".data) ]

/-- `ModuleNotFoundError:\s*No module named '(\S+)'` — the first
dependency pattern. -/
def moduleNotFoundRE : RE :=
  rcat [rci "ModuleNotFoundError:", .starG .ws, rci "No module named ",
        .lit [sqc], .grp 1 (.plusG .nonWs), .lit [sqc]]

/-- The seven dependency patterns. -/
def depPatterns : List (RE × Nat × Str) :=
  [ (moduleNotFoundRE, 1, "Missing module: {0}".data),
    (rcat [rci "ImportError:", .starG .ws, .grp 1 (.plusG .anyNoNl)], 1,
     "Import error: {0}".data),
    (rcat [rci "Cannot find module ", .lit [sqc], .grp 1 (.plusG .nonWs),
           .lit [sqc]], 1, "Missing Node module: {0}".data),
    (rcat [rci "No module named ", .opt (.lit [sqc]), .grp 1 (.plusL .nonWs),
           .opt (.lit [sqc])], 1, "Missing module: {0}".data),
    (rcat [rci "unresolved import ", .lit [bqc], .grp 1 (.plusG .nonWs),
           .lit [bqc]], 1, "Unresolved import: {0}".data),
    (rcat [rci "package ", .lit [bqc], .grp 1 (.plusG .nonWs), .lit [bqc],
           .plusG .anyNoNl, rci "not found"], 1, "Missing Rust crate: {0}".data),
    (rci "Could not find a version that satisfies", 0,
     "Dependency version conflict".data) ]

def envPatterns : List (RE × Nat × Str) :=
  [ (rci "version mismatch", 0, "Version mismatch".data),
    (rcat [rci "requires Python", .starG .ws, .grp 1 (.plusG digitDot)], 1,
     "Requires Python {0}".data),
    (rcat [rci "engine ", .plusG .anyNoNl, rci " is incompatible"], 0,
     "Engine incompatible".data),
    (rcat [rci "ENOENT", .plusL .anyNoNl, .lit [sqc], .grp 1 (.plusG .nonWs),
           .lit [sqc]], 1, "Command not found: {0}".data),
    (rcat [rci "command not found:", .starG .ws, .grp 1 (.plusG .nonWs)], 1,
     "Command not found: {0}".data),
    (rci "minimum supported rust version", 0, "Rust version too old".data) ]

def apiPatterns : List (RE × Nat × Str) :=
  [ (rcat [rci "AttributeError:", .starG .ws, .opt (.lit [sqc]),
           .grp 1 (.plusG .wordc), .opt (.lit [sqc]), .plusG .ws,
           rci "object has no attribute ", .lit [sqc], .grp 2 (.plusG .wordc),
           .lit [sqc]], 2, ("{0} has no attribute ".data ++ [sqc] ++ "{1}".data ++ [sqc])),
    (rcat [rci "TypeError:", .starG .ws, .grp 1 (.plusG .wordc), rstr "() ",
           .alt (rci "got an unexpected")
             (.alt (rcat [rci "missing ", .plusG .digit, rci " required"])
                   (rcat [rci "takes ", .plusG .digit]))], 1,
     "Wrong arguments for {0}()".data),
    (rcat [rci "missing ", .plusG .digit, rci " required ",
           .opt (rci "positional "), rci "argument"], 0,
     "Missing required argument".data),
    (rcat [rci "has no member named ", .lit [bqc], .grp 1 (.plusG .wordc),
           .lit [bqc]], 1, "No member: {0}".data),
    (rcat [rci "no method named ", .lit [bqc], .grp 1 (.plusG .wordc),
           .lit [bqc]], 1, "No method: {0}".data),
    (rci "is not a function", 0, "Not a function".data),
    (rci "is not defined", 0, "Not defined".data) ]

def lintPatterns : List (RE × Nat × Str) :=
  [ (rci "flake8", 0, "Flake8 lint error".data),
    (rci "eslint", 0, "ESLint error".data),
    (rci "clippy", 0, "Clippy warning".data),
    (rcat [rci "warning", rstr "[", .grp 1 (.plusG .wordc), rstr "]"], 1,
     "Compiler warning: {0}".data),
    (rcat [rci "formatting", .plusG .anyNoNl, rci "differ"], 0,
     "Formatting difference".data) ]

def flakyPatterns : List (RE × Nat × Str) :=
  [ (.alt (rci "timeout") (rcat [rci "time", .opt (rci "d"), .starG .ws, rci "out"]), 0,
     "Test timed out".data),
    (rci "flaky", 0, "Flaky test".data),
    (rci "intermittent", 0, "Intermittent failure".data),
    (rci "connection refused", 0, "Connection refused".data),
    (rci "ECONNRESET", 0, "Connection reset".data),
    (rci "Resource temporarily unavailable", 0, "Resource unavailable".data) ]

def assertionPatterns : List (RE × Nat × Str) :=
  [ (rcat [rci "AssertionError:", .starG .ws, rci "assert", .plusG .ws,
           .grp 1 (.plusG .anyNoNl)], 1, "Assertion failed: {0}".data),
    (rcat [rci "AssertionError:", .starG .ws, .grp 1 (.plusG .anyNoNl)], 1,
     "Assertion: {0}".data),
    (rcat [rci "assert", .plusG .ws, .plusG digitDot, .starG .ws, rstr "==",
           .starG .ws, .plusG digitDot], 0, "Assertion: value mismatch".data),
    (rcat [rci "assert", .plusG .ws, .grp 1 (.plusL .anyNoNl), .starG .ws,
           rstr "==", .starG .ws, .grp 2 (.plusG .anyNoNl)], 2,
     "Assertion: {0} != {1}".data),
    (rcat [rci "assert_eq!", .plusG .anyNoNl, rci "left:", .starG .ws, .lit [bqc],
           .grp 1 (.plusL .anyNoNl), .lit [bqc], rstr ",", .starG .ws,
           rci "right:", .starG .ws, .lit [bqc], .grp 2 (.plusL .anyNoNl),
           .lit [bqc]], 2, "assert_eq! left={0}, right={1}".data),
    (rcat [rci "expect(", .plusG .anyNoNl, rci ").to",
           .alt (rci "Equal") (rci "Be"), rci "(", .grp 1 (.plusL .anyNoNl),
           rci ")"], 1, "Expected {0}".data),
    (rcat [rci "Expected", .plusG .ws, .grp 1 (.plusL .anyNoNl), .plusG .ws,
           rci "to ", .alt (rci "equal") (rci "be"), .plusG .ws,
           .grp 2 (.plusG .anyNoNl)], 2, "Expected {1}, got {0}".data),
    (rcat [rci "expected:", .starG .ws, .grp 1 (.plusL .anyNoNl), .plusG .ws,
           rci "but was:", .starG .ws, .grp 2 (.plusG .anyNoNl)], 2,
     "Expected {0}, got {1}".data),
    (rcat [rstr "!=", .cls .ws], 0, "Value mismatch".data),
    (rci "AssertionError", 0, "Assertion error".data) ]

/-- `RULES`: the ordered classification table (category, base confidence,
ordered pattern list). -/
def rulesList : List (FailureCategory × ℚ × List (RE × Nat × Str)) :=
  [ (.syntax_error, 0.95, syntaxPatterns),
    (.dependency, 0.90, depPatterns),
    (.env_mismatch, 0.80, envPatterns),
    (.api_change, 0.85, apiPatterns),
    (.lint, 0.75, lintPatterns),
    (.flaky_test, 0.60, flakyPatterns),
    (.assertion, 0.85, assertionPatterns) ]

/-- `summary_template.format(*m.groups())`: replace `{i}` placeholders;
`none` models the `IndexError` when a placeholder index is out of range. -/
def fmtTemplate (groups : List Str) : Str → Option Str
  | [] => some []
  | c :: d :: c2 :: rest2 =>
    if c == obr && d.isDigit && c2 == cbr then
      match groups.get? (d.toNat - 48) with
      | some g => (fmtTemplate groups rest2).map (g ++ ·)
      | none => none
    else (fmtTemplate groups (d :: c2 :: rest2)).map (c :: ·)
  | c :: rest => (fmtTemplate groups rest).map (c :: ·)

/-- First matching pattern inside one category. -/
def scanPatterns (text : Str) : List (RE × Nat × Str) → Option (Nat × Str × MRes)
  | [] => none
  | (r, n, tmpl) :: rest =>
    match reSearch r text with
    | some m => some (n, tmpl, m)
    | none => scanPatterns text rest

/-- First matching pattern across the whole ordered table. -/
def scanRules (text : Str) :
    List (FailureCategory × ℚ × List (RE × Nat × Str)) →
    Option (FailureCategory × ℚ × Nat × Str × MRes)
  | [] => none
  | (cat, conf, pats) :: rest =>
    match scanPatterns text pats with
    | some (n, tmpl, m) => some (cat, conf, n, tmpl, m)
    | none => scanRules text rest

/-- `text = f"{failure.error_message}\n{failure.full_output}"`. -/
def classifierText (f : TestFailure) : Str :=
  f.error_message ++ '\n' :: f.full_output

/-- Embedding of `_classify_one(failure)`.  Unmatched groups format as the
text `None`, as `str.format` renders Python `None`. -/
def classifyOne (f : TestFailure) : ClassifiedFailure :=
  let text := classifierText f
  match scanRules text rulesList with
  | some (cat, conf, n, tmpl, m) =>
    let groups := (List.range n).map (fun i => (capGet m.caps (i + 1)).getD "None".data)
    let summary := (fmtTemplate groups tmpl).getD tmpl
    { failure := f, category := cat, confidence := conf, summary := summary }
  | none =>
    { failure := f, category := .unknown, confidence := 0.3
      summary := if f.error_message.isEmpty then "Unknown error".data
                 else f.error_message.take 80 }

/-- Embedding of `classify(failures, ecosystem)` (the ecosystem argument is
unused in the source body). -/
def classify (failures : List TestFailure) : List ClassifiedFailure :=
  failures.map classifyOne

-- concrete sanity check: the C4/C8 scenario text
example :
    (classifyOne
      { test_name := "t".data, file_path := [], line_number := none
        error_message :=
          "ModuleNotFoundError: No module named ".data ++ [sqc] ++ "foo".data ++ [sqc]
        full_output := [] }).category = FailureCategory.dependency := by decide

example :
    (classifyOne
      { test_name := "t".data, file_path := [], line_number := none
        error_message :=
          "ModuleNotFoundError: No module named ".data ++ [sqc] ++ "foo".data ++ [sqc]
        full_output := [] }).summary = "Missing module: foo".data := by decide

/-! ## Patch extraction engine (`src/fixforward/copilot.py`)

The project directory is modelled as an association list from relative
file path to current content (`Path.exists` = membership, `read_text` =
lookup); `difflib.SequenceMatcher(...).ratio()` — an external standard
library routine — is a parameter `sim` of the strategy-3 scan. -/

structure FileChange where
  file_path : Str
  original_content : Str
  modified_content : Str
  diff : Str
deriving DecidableEq

def lookupFile (files : List (Str × Str)) (fp : Str) : Option Str :=
  (files.find? (·.1 == fp)).map (·.2)

def endsWithStr (suffix s : Str) : Bool := isPref suffix.reverse s.reverse

/-- Modelled from the spec: `difflib.unified_diff` (external standard
library), the "standard three-line-header unified diff format
(`--- a/<path>`, `+++ b/<path>`, hunk headers, `+`/`-`/context lines)" of
§6.  One replacement hunk covering both files; each generated header line
ends with `lineterm` exactly as difflib appends its `lineterm` argument,
while body lines carry whatever line terminators the input lines have. -/
def unifiedDiffLines (fromfile tofile : Str) (a b : List Str) (lineterm : Str) :
    List Str :=
  if a == b then []
  else
    ("--- ".data ++ fromfile ++ lineterm)
      :: ("+++ ".data ++ tofile ++ lineterm)
      :: (("@@ -1,".data ++ natToStr a.length ++ " +1,".data ++ natToStr b.length
            ++ " @@".data ++ lineterm)
      :: (a.map (fun l => '-' :: l) ++ b.map (fun l => '+' :: l)))

/-- Embedding of `_make_diff(file_path, original, modified)`: split both
sides with `splitlines(keepends=True)`, generate a unified diff with
`lineterm=""`, and join the produced lines with `"".flatten(...)`. -/
def makeDiff (fp : Str) (original modified : Str) : Str :=
  (unifiedDiffLines ("a/".data ++ fp) ("b/".data ++ fp)
      (pySplitKeep original) (pySplitKeep modified) []).flatten

/-- `file_pattern = \*{0,2}FILE:\s*(.+?)\*{0,2}\s*\n\s*```\w*\n(.+?)``` ` (DOTALL) -/
def filePatternRE : RE :=
  rcat [.opt (.lit ['*']), .opt (.lit ['*']), rstr "FILE:", .starG .ws,
        .grp 1 (.plusL .anyCh), .opt (.lit ['*']), .opt (.lit ['*']), .starG .ws,
        rstr "\n", .starG .ws, .lit [bqc, bqc, bqc], .starG .wordc, rstr "\n",
        .grp 2 (.plusL .anyCh), .lit [bqc, bqc, bqc]]

/-- `diff_pattern = ```diff\n(.+?)``` ` (DOTALL) -/
def diffBlockRE : RE :=
  rcat [.lit ([bqc, bqc, bqc] ++ "diff\n".data), .grp 1 (.plusL .anyCh),
        .lit [bqc, bqc, bqc]]

/-- `[+-]{3}\s+[ab]/(.+)` (extracting the file name from a diff header) -/
def diffHeaderRE : RE :=
  rcat [.cls (.inSet "+-".data), .cls (.inSet "+-".data), .cls (.inSet "+-".data),
        .plusG .ws, .cls (.inSet "ab".data), rstr "/", .grp 1 (.plusG .anyNoNl)]

/-- `code_pattern = ```(\w+)\n(.+?)``` ` (DOTALL) -/
def codeBlockRE : RE :=
  rcat [.lit [bqc, bqc, bqc], .grp 1 (.plusG .wordc), rstr "\n",
        .grp 2 (.plusL .anyCh), .lit [bqc, bqc, bqc]]

/-- Strategy 1: explicit `FILE:` markers followed by fenced blocks. -/
def strategy1 (raw : Str) (files : List (Str × Str)) : List FileChange :=
  (reFindAll filePatternRE raw).filterMap fun m =>
    let fp := stripChar '*' (pyStrip ((capGet m.caps 1).getD []))
    let newContent := (capGet m.caps 2).getD []
    let origContent := (lookupFile files fp).getD []
    if pyStrip newContent == pyStrip origContent then none
    else some { file_path := fp, original_content := origContent
                modified_content := newContent
                diff := makeDiff fp origContent newContent }

/-- Strategy 2: explicitly tagged ```diff blocks. -/
def strategy2 (raw : Str) : List FileChange :=
  (reFindAll diffBlockRE raw).filterMap fun m =>
    let diffText := (capGet m.caps 1).getD []
    match reSearch diffHeaderRE diffText with
    | some fm =>
      some { file_path := pyStrip ((capGet fm.caps 1).getD [])
             original_content := [], modified_content := [], diff := diffText }
    | none => none

/-- `ext_map` lookup. -/
def extMap (lang : Str) : Option Str :=
  if lang == "python".data then some ".py".data
  else if lang == "javascript".data then some ".js".data
  else if lang == "rust".data then some ".rs".data
  else if lang == "py".data then some ".py".data
  else if lang == "js".data then some ".js".data
  else if lang == "rs".data then some ".rs".data
  else none

/-- The per-block file scan of strategy 3: first project file with the
right extension whose similarity ratio lies strictly between 0.5 and 1. -/
def firstSimilar (ext content : Str) (sim : Str → Str → ℚ) :
    List (Str × Str) → Option FileChange
  | [] => none
  | (fp, orig) :: rest =>
    if endsWithStr ext fp then
      let r := sim orig content
      if 1 / 2 < r ∧ r < 1 then
        some { file_path := fp, original_content := orig
               modified_content := content, diff := makeDiff fp orig content }
      else firstSimilar ext content sim rest
    else firstSimilar ext content sim rest

/-- Strategy 3: fuzzy-match remaining language-tagged code blocks against
project files (the `files` list enumerates `rglob` order). -/
def strategy3 (raw : Str) (files : List (Str × Str)) (sim : Str → Str → ℚ) :
    List FileChange :=
  (reFindAll codeBlockRE raw).filterMap fun m =>
    let lang := (capGet m.caps 1).getD []
    let content := (capGet m.caps 2).getD []
    match extMap lang with
    | none => none
    | some ext => firstSimilar ext content sim files

/-- Embedding of `_parse_response(raw_output, project_path)`: the three
strategies tried strictly in order, stopping at the first that yields at
least one change. -/
def parseResponse (raw : Str) (files : List (Str × Str)) (sim : Str → Str → ℚ) :
    List FileChange :=
  let c1 := strategy1 raw files
  if !c1.isEmpty then c1
  else
    let c2 := strategy2 raw
    if !c2.isEmpty then c2
    else strategy3 raw files sim

/-- `markers[0] = (?:explanation|what changed|changes made|summary):?\s*\n(.+)`
(IGNORECASE, DOTALL) -/
def marker1RE : RE :=
  rcat [.alt (rci "explanation")
          (.alt (rci "what changed") (.alt (rci "changes made") (rci "summary"))),
        .opt (rstr ":"), .starG .ws, rstr "\n", .grp 1 (.plusG .anyCh)]

/-- `markers[1] = (?:I changed|I fixed|The fix|This fixes|The issue).+`
(IGNORECASE, DOTALL) -/
def marker2RE : RE :=
  .cat (.alt (rci "I changed")
          (.alt (rci "I fixed")
            (.alt (rci "The fix") (.alt (rci "This fixes") (rci "The issue")))))
    (.plusG .anyCh)

/-- `"\n".flatten(text.strip().splitlines()[:10])`. -/
def firstTenLines (text : Str) : Str :=
  joinSep "\n".data ((pySplitlines (pyStrip text)).take 10)

/-- Embedding of `_extract_explanation(raw_output)`. -/
def extractExplanation (raw : Str) : Str :=
  match reSearch marker1RE raw with
  | some m => firstTenLines ((capGet m.caps 1).getD [])
  | none =>
    match reSearch marker2RE raw with
    | some m => firstTenLines m.mat
    | none =>
      match (splitSub "\n\n".data (pyStrip raw)).getLast? with
      | some p => p.take 500
      | none => []

/-- Modelled from the spec: applying "standard three-line-header unified
diff format" text (§6) to an original file.  The applier parses the two
`---`/`+++` header lines and then `@@ -s,n +t,m @@` hunks whose `-` and
context lines must agree with the original; there is no diff applier in
the repository itself, so this is the specification-side meaning of
"applying the generated unified diff". -/
def hunkHeadRE : RE :=
  rcat [rstr "@@ -", .grp 1 (.plusG .digit), rstr ",", .grp 2 (.plusG .digit),
        rstr " +", .grp 3 (.plusG .digit), rstr ",", .grp 4 (.plusG .digit),
        rstr " @@"]

/-- Apply the body lines of the hunks to the original lines, 1-based
cursor `cur`; hunk `-`/space lines are checked against the original. -/
def applyHunkLines (dls : List Str) (orig : List Str) (cur : Nat) :
    Option (List Str) :=
  match dls with
  | [] =>
    if cur ≤ orig.length then some (orig.drop cur) else none
  | dl :: rest =>
    match dl with
    | '-' :: content =>
      if orig.get? cur = some content then applyHunkLines rest orig (cur + 1)
      else none
    | '+' :: content => (applyHunkLines rest orig cur).map (content :: ·)
    | ' ' :: content =>
      if orig.get? cur = some content then
        (applyHunkLines rest orig (cur + 1)).map (content :: ·)
      else none
    | _ =>
      match reSearch hunkHeadRE dl with
      | some m =>
        if m.start == 0 then
          let s := digitsToNat ((capGet m.caps 1).getD [])
          if cur + 1 ≤ s then
            ((applyHunkLines rest orig (s - 1)).map
              (fun tail => ((List.range (s - 1 - cur)).map
                  (fun i => (orig.get? (cur + i)).getD [])) ++ tail))
          else none
        else none
      | none => none

def applyUnifiedDiff (diffText : Str) (original : Str) : Option Str :=
  match pySplitlines diffText with
  | l0 :: l1 :: rest =>
    if isPref "--- ".data l0 && isPref "+++ ".data l1 then
      match rest with
      | h :: body =>
        match reSearch hunkHeadRE h with
        | some m =>
          if m.start == 0 then
            let s := digitsToNat ((capGet m.caps 1).getD [])
            let origLines := pySplitlines original
            (applyHunkLines body origLines (s - 1)).map fun tail =>
              (((origLines.take (s - 1)) ++ tail).map (· ++ ['\n'])).flatten
          else none
        | none => none
      | [] => none
    else none
  | _ => none

-- concrete sanity checks of the patch extraction engine
example :
    (strategy2 ([bqc, bqc, bqc] ++ "diff\n--- a/foo.py\n+++ b/foo.py\n".data
        ++ [bqc, bqc, bqc])).map (·.file_path)
      = ["foo.py".data] := by decide

example : extractExplanation " ".data = [] := by decide

example :
    makeDiff "f.py".data "a\n".data "b\n".data
      = "--- a/f.py+++ b/f.py@@ -1,1 +1,1 @@-a\n+b\n".data := by decide

/-! ## Theorems about the confidence scorer -/

theorem roundTo2_nonneg {x : ℚ} (h : 0 ≤ x) : 0 ≤ roundTo2 x := by
  unfold roundTo2
  have h1 : (0 : ℤ) ≤ ⌊100 * x + 1 / 2⌋ := Int.floor_nonneg.mpr (by linarith)
  have h2 : (0 : ℚ) ≤ ((⌊100 * x + 1 / 2⌋ : ℤ) : ℚ) := by exact_mod_cast h1
  linarith

theorem roundTo2_le_one {x : ℚ} (h : x ≤ 0.95) : roundTo2 x ≤ 1 := by
  unfold roundTo2
  have h1 : ((⌊100 * x + 1 / 2⌋ : ℤ) : ℚ) ≤ 100 * x + 1 / 2 := Int.floor_le _
  linarith

theorem roundTo2_mono {x y : ℚ} (h : x ≤ y) : roundTo2 x ≤ roundTo2 y := by
  unfold roundTo2
  have h1 : ⌊100 * x + 1 / 2⌋ ≤ ⌊100 * y + 1 / 2⌋ := Int.floor_mono (by linarith)
  have h2 : ((⌊100 * x + 1 / 2⌋ : ℤ) : ℚ) ≤ ((⌊100 * y + 1 / 2⌋ : ℤ) : ℚ) := by
    exact_mod_cast h1
  linarith

theorem ratio_bounds {bb f : Nat} (hf : f < bb) :
    0 ≤ ((bb : ℚ) - (f : ℚ)) / (bb : ℚ) ∧ ((bb : ℚ) - (f : ℚ)) / (bb : ℚ) ≤ 1 := by
  have hb : (0 : ℚ) < (bb : ℚ) := by exact_mod_cast Nat.pos_of_ne_zero (by omega)
  have hfb : (f : ℚ) ≤ (bb : ℚ) := by exact_mod_cast hf.le
  have hf0 : (0 : ℚ) ≤ (f : ℚ) := Nat.cast_nonneg f
  constructor
  · exact div_nonneg (by linarith) hb.le
  · rw [div_le_one hb]
    linarith

theorem baseScore_bounds (b a : TestResult) :
    0 ≤ baseScore b a ∧ baseScore b a ≤ 0.90 := by
  unfold baseScore
  split_ifs with h1 h2 h3
  · norm_num
  · rcases ratio_bounds h2 with ⟨hr0, hr1⟩
    constructor <;> nlinarith
  · norm_num
  · norm_num

theorem penScore_bounds (b a : TestResult) :
    0 ≤ penScore b a ∧ penScore b a ≤ 0.90 := by
  unfold penScore
  rcases baseScore_bounds b a with ⟨h0, h9⟩
  split_ifs with h1
  · exact ⟨le_max_left _ _, max_le (by norm_num) (by
      have : (0 : ℚ) ≤ ((a.failed_count : ℚ) - (b.failed_count : ℚ)) := by
        have := h1.le
        have hc : (b.failed_count : ℚ) ≤ (a.failed_count : ℚ) := by exact_mod_cast this
        linarith
      linarith)⟩
  · exact ⟨h0, h9⟩

theorem confidencePre_bounds (b a : TestResult) :
    0 ≤ confidencePre b a ∧ confidencePre b a ≤ 0.95 := by
  unfold confidencePre
  rcases penScore_bounds b a with ⟨h0, h9⟩
  split_ifs with h1
  · exact ⟨le_min (by norm_num) (by linarith), le_trans (min_le_right _ _) (by linarith)⟩
  · exact ⟨h0, by linarith⟩

/-- C1: for every pair of run summaries the confidence scorer returns
exactly the value specified by §4.4 steps 1–6 (base 0.90 when
`after.passed`; else 0.30 + 0.50 × fixedCount/before.failed_count when
the failure count dropped, 0.30 at before.failed_count = 0; else 0.10;
minus 0.20 per extra failure clamped at 0; plus 0.05 when
`after.total_tests ≥ before.total_tests` clamped at 1; rounded to two
decimals) — and the result always lies in [0, 1]. -/
theorem C1_confidence_formula (before after : TestResult) :
    calculateConfidence before after = specConfidence before after ∧
    0 ≤ calculateConfidence before after ∧ calculateConfidence before after ≤ 1 := by
  refine ⟨?_, ?_, ?_⟩
  · show roundTo2 (confidencePre before after) = specConfidence before after
    unfold specConfidence confidencePre penScore baseScore
    simp only [beq_iff_eq]
    congr 1
    split_ifs <;> first | rfl | ring1 | (congr 1; ring1) | (exfalso; omega)
  · exact roundTo2_nonneg (confidencePre_bounds before after).1
  · exact roundTo2_le_one (confidencePre_bounds before after).2

theorem penScore_le_of_ge_base (b a : TestResult)
    (hge : b.failed_count ≤ a.failed_count) (hnp : a.passed = false) :
    penScore b a ≤ 0.10 := by
  unfold penScore baseScore
  rw [hnp, if_neg Bool.false_ne_true,
      if_neg (by omega : ¬ a.failed_count < b.failed_count)]
  split_ifs with h1
  · refine max_le (by norm_num) ?_
    have hc : (b.failed_count : ℚ) ≤ (a.failed_count : ℚ) := by exact_mod_cast hge
    linarith
  · norm_num

theorem penScore_mono (b a1 a2 : TestResult)
    (h1 : a1.passed = (a1.failed_count == 0))
    (h2 : a2.passed = (a2.failed_count == 0))
    (hf : a1.failed_count ≤ a2.failed_count) :
    penScore b a2 ≤ penScore b a1 := by
  rcases Nat.eq_zero_or_pos a1.failed_count with hz1 | hp1
  · -- a1 passes: its penalised score is exactly 0.90, an upper bound
    have hpass : penScore b a1 = 0.90 := by
      unfold penScore baseScore
      rw [h1, if_neg (by omega : ¬ b.failed_count < a1.failed_count),
          if_pos (show (a1.failed_count == 0) = true by simp [hz1])]
    rw [hpass]
    rcases Nat.eq_zero_or_pos a2.failed_count with hz2 | hp2
    · have h90 : penScore b a2 = 0.90 := by
        unfold penScore baseScore
        rw [h2, if_neg (by omega : ¬ b.failed_count < a2.failed_count),
            if_pos (show (a2.failed_count == 0) = true by simp [hz2])]
      rw [h90]
    · exact (penScore_bounds b a2).2
  · -- both runs still fail
    have hp2 : 0 < a2.failed_count := lt_of_lt_of_le hp1 hf
    have hnp1 : a1.passed = false := by
      rw [h1]; exact beq_eq_false_iff_ne.mpr (Nat.pos_iff_ne_zero.mp hp1)
    have hnp2 : a2.passed = false := by
      rw [h2]; exact beq_eq_false_iff_ne.mpr (Nat.pos_iff_ne_zero.mp hp2)
    rcases Nat.lt_or_ge a2.failed_count b.failed_count with hlt2 | hge2
    · -- both strictly improved: formula branch, ratio is antitone
      have hlt1 : a1.failed_count < b.failed_count := lt_of_le_of_lt hf hlt2
      have hbpos : 0 < b.failed_count := by omega
      unfold penScore baseScore
      rw [hnp1, hnp2, if_neg Bool.false_ne_true, if_neg Bool.false_ne_true,
          if_neg (by omega : ¬ b.failed_count < a2.failed_count),
          if_neg (by omega : ¬ b.failed_count < a1.failed_count),
          if_pos hlt2, if_pos hlt1, if_pos hbpos, if_pos hbpos]
      have hb : (0 : ℚ) < (b.failed_count : ℚ) := by exact_mod_cast hbpos
      have hc : (a1.failed_count : ℚ) ≤ (a2.failed_count : ℚ) := by exact_mod_cast hf
      have hr : ((b.failed_count : ℚ) - (a2.failed_count : ℚ)) / (b.failed_count : ℚ)
          ≤ ((b.failed_count : ℚ) - (a1.failed_count : ℚ)) / (b.failed_count : ℚ) :=
        (div_le_div_iff_of_pos_right hb).mpr (by linarith)
      linarith
    · -- a2 did not improve: its score is at most 0.10
      have hle2 : penScore b a2 ≤ 0.10 := penScore_le_of_ge_base b a2 hge2 hnp2
      rcases Nat.lt_or_ge a1.failed_count b.failed_count with hlt1 | hge1
      · -- a1 improved: its score is at least 0.30
        have hbpos : 0 < b.failed_count := by omega
        have h30 : (0.30 : ℚ) ≤ penScore b a1 := by
          unfold penScore baseScore
          rw [hnp1, if_neg Bool.false_ne_true,
              if_neg (by omega : ¬ b.failed_count < a1.failed_count),
              if_pos hlt1, if_pos hbpos]
          rcases ratio_bounds hlt1 with ⟨hr0, _⟩
          nlinarith
        linarith
      · -- neither improved: penalty is monotone in the failure excess
        unfold penScore baseScore
        rw [hnp1, hnp2, if_neg Bool.false_ne_true, if_neg Bool.false_ne_true,
            if_neg (by omega : ¬ a1.failed_count < b.failed_count),
            if_neg (by omega : ¬ a2.failed_count < b.failed_count)]
        have hc : (a1.failed_count : ℚ) ≤ (a2.failed_count : ℚ) := by exact_mod_cast hf
        split_ifs with hb2 hb1 hb1
        · exact max_le_max le_rfl (by linarith)
        · refine max_le (by norm_num) ?_
          have hcb : (b.failed_count : ℚ) ≤ (a2.failed_count : ℚ) := by
            exact_mod_cast hb2.le
          linarith
        · omega
        · exact le_rfl

/-- C6: with `after.passed` holding exactly when `after.failed_count = 0`
and the total held fixed, the confidence score is non-decreasing as the
remaining failure count decreases, across all branch boundaries. -/
theorem C6_confidence_monotone (before a1 a2 : TestResult)
    (h1 : a1.passed = (a1.failed_count == 0))
    (h2 : a2.passed = (a2.failed_count == 0))
    (ht : a1.total_tests = a2.total_tests)
    (hf : a1.failed_count ≤ a2.failed_count) :
    calculateConfidence before a2 ≤ calculateConfidence before a1 := by
  apply roundTo2_mono
  unfold confidencePre
  rw [← ht]
  have hpen := penScore_mono before a1 a2 h1 h2 hf
  split_ifs with hb
  · exact min_le_min le_rfl (by linarith)
  · exact hpen

/-- A concrete run summary for witnesses: `f` failures out of `t` tests. -/
def trSample (p : Bool) (f t : Nat) : TestResult :=
  { passed := p, exit_code := 0, raw_output := [], total_tests := t
    passed_count := t - f, failed_count := f, failures := []
    duration_seconds := 0 }

theorem C6_confidence_monotone_witness :
    calculateConfidence (trSample false 2 5) (trSample false 1 5)
      ≤ calculateConfidence (trSample false 2 5) (trSample true 0 5) :=
  C6_confidence_monotone (trSample false 2 5) (trSample true 0 5) (trSample false 1 5)
    (by decide) (by decide) rfl (by decide)

/-- C10: `new_failure_count` is the total number of failures remaining
after the fix (`after.failed_count`), not the count of failures newly
introduced beyond `before.failed_count`; at a run where both failures
remain unfixed it is 2 while the newly-introduced count is 0. -/
theorem C10_new_failure_count :
    (∀ original_result new_result : TestResult,
        (verify original_result new_result).new_failure_count
          = new_result.failed_count) ∧
    (verify (trSample false 2 5) (trSample false 2 5)).new_failure_count
      ≠ max 0 ((trSample false 2 5).failed_count - (trSample false 2 5).failed_count) :=
  ⟨fun _ _ => rfl, by decide⟩

/-! ## Theorems about the pytest normalizer -/

def c3Text : Str :=
  "=== 1 failed, 4 passed in 0.20s ===\n=== 5 failed, 0 passed in 0.10s ===".data

/-- C3 counterexample: a raw text that contains the well-formed summary
line `1 failed, 4 passed in 0.20s` but is followed by a later summary
line; the normalizer takes the *last* summary-shaped line, so it returns
`failed_count = 5, passed_count = 0`, not the claimed 1 and 4. -/
theorem C3_counterexample :
    containsSub "1 failed, 4 passed in 0.20s".data c3Text = true ∧
    (pytestParse c3Text).map (·.failed_count) = some 5 ∧
    (pytestParse c3Text).map (·.passed_count) = some 0 :=
  ⟨by decide, by decide, by decide⟩

/-- C3 (amended): for any raw text whose *last* summary-pattern-matching
line yields the groups `("1 failed, 4 passed", "0.20")`, the normalizer
returns `total_tests = 5, failed_count = 1, passed_count = 4,
duration_seconds = 0.20`. -/
theorem C3_summary_counts (raw : Str)
    (h : findLastSummary (pySplitlines raw)
        = some ("1 failed, 4 passed".data, "0.20".data)) :
    (pytestParse raw).map (·.total_tests) = some 5 ∧
    (pytestParse raw).map (·.failed_count) = some 1 ∧
    (pytestParse raw).map (·.passed_count) = some 4 ∧
    (pytestParse raw).map (·.duration_seconds) = some 0.20 := by
  have hd : parseFloatQ "0.20".data
      = some ((digitsToNat "0".data : ℚ) + (digitsToNat "20".data : ℚ) / 10 ^ 2) := rfl
  have hval : ((digitsToNat "0".data : ℚ) + (digitsToNat "20".data : ℚ) / 10 ^ 2)
      = 0.20 := by
    norm_num [show digitsToNat "0".data = 0 from rfl,
              show digitsToNat "20".data = 20 from rfl]
  have hf : natGroupSearch failedCountRE "1 failed, 4 passed".data = some 1 := by decide
  have hp : natGroupSearch passedCountRE "1 failed, 4 passed".data = some 4 := by decide
  have he : natGroupSearch errorCountRE "1 failed, 4 passed".data = none := by decide
  have hres : pytestParse raw = some
      { passed := false, exit_code := 0, raw_output := raw
        total_tests := 5, passed_count := 4, failed_count := 1
        failures := pytestFailures (pySplitlines raw) 1 0
        duration_seconds :=
          (digitsToNat "0".data : ℚ) + (digitsToNat "20".data : ℚ) / 10 ^ 2 } := by
    simp only [pytestParse, h, hd, hf, hp, he, Option.getD_some]
    rfl
  rw [hres]
  exact ⟨rfl, rfl, rfl, congrArg some hval⟩

def c3Good : Str := "=== 1 failed, 4 passed in 0.20s ===".data

theorem C3_summary_counts_witness :
    (pytestParse c3Good).map (·.total_tests) = some 5 ∧
    (pytestParse c3Good).map (·.failed_count) = some 1 ∧
    (pytestParse c3Good).map (·.passed_count) = some 4 ∧
    (pytestParse c3Good).map (·.duration_seconds) = some 0.20 :=
  C3_summary_counts c3Good (by decide)

/-- C7: on the empty input every normalizer yields
`total = 0, failed_count = 0, passed = true` with no failure records —
but the "never raises" half of the claim fails: on the input
`"=== broken in 1.2.3s ==="` the pytest normalizer reaches
`float("1.2.3")`, which raises `ValueError` (modelled as `none`). -/
theorem C7_normalizer_totality :
    ((pytestParse []).map
        (fun r => (r.total_tests, r.failed_count, r.passed_count, r.passed, r.failures))
      = some (0, 0, 0, true, [])) ∧
    ((pytestParse []).map (·.duration_seconds) = some 0) ∧
    ((npmParse []).map
        (fun r => (r.total_tests, r.failed_count, r.passed_count, r.passed, r.failures))
      = some (0, 0, 0, true, [])) ∧
    (((cargoParse []).total_tests, (cargoParse []).failed_count,
        (cargoParse []).passed_count, (cargoParse []).passed, (cargoParse []).failures)
      = (0, 0, 0, true, [])) ∧
    pytestParse "=== broken in 1.2.3s ===".data = none :=
  ⟨by decide, rfl, by decide, by decide, by decide⟩

theorem scanPatterns_cons_some {text : Str} {r : RE} {n : Nat} {tmpl : Str}
    {rest : List (RE × Nat × Str)} {m : MRes} (h : reSearch r text = some m) :
    scanPatterns text ((r, n, tmpl) :: rest) = some (n, tmpl, m) := by
  simp only [scanPatterns, h]

theorem scanRules_cons_none {text : Str} {pats : List (RE × Nat × Str)}
    {cat : FailureCategory} {conf : ℚ} {rest : List (FailureCategory × ℚ × List (RE × Nat × Str))}
    (h : scanPatterns text pats = none) :
    scanRules text ((cat, conf, pats) :: rest) = scanRules text rest := by
  simp only [scanRules, h]

theorem scanRules_cons_some {text : Str} {pats : List (RE × Nat × Str)}
    {cat : FailureCategory} {conf : ℚ} {rest : List (FailureCategory × ℚ × List (RE × Nat × Str))}
    {n : Nat} {tmpl : Str} {m : MRes} (h : scanPatterns text pats = some (n, tmpl, m)) :
    scanRules text ((cat, conf, pats) :: rest) = some (cat, conf, n, tmpl, m) := by
  simp only [scanRules, h]

def mnfText : Str :=
  "ModuleNotFoundError: No module named ".data ++ [sqc] ++ "foo".data ++ [sqc]

def c4Failure : TestFailure :=
  { test_name := "t".data, file_path := [], line_number := none
    error_message := "SyntaxError: bad".data
    full_output := mnfText }

/-- C4 counterexample: a failure whose combined text contains
`ModuleNotFoundError: No module named 'foo'` but also a syntax-error
pattern; the earlier syntax-error table entry wins, so the classifier
does not return the dependency category. -/
theorem C4_counterexample :
    containsSub mnfText (classifierText c4Failure) = true ∧
    (classifyOne c4Failure).category = FailureCategory.syntax_error ∧
    ¬ ((classifyOne c4Failure).category = FailureCategory.dependency ∧
        (classifyOne c4Failure).summary = "Missing module: foo".data) :=
  ⟨by decide, by decide, by decide⟩

/-- C4 (amended): for every failure record whose combined text matches no
syntax-error-category pattern and whose first `ModuleNotFoundError`
match captures the module name `foo`, the classifier returns the
dependency category with confidence 0.90 and summary
`Missing module: foo`. -/
theorem C4_module_not_found (f : TestFailure)
    (hs : scanPatterns (classifierText f) syntaxPatterns = none)
    (hd : (reSearch moduleNotFoundRE (classifierText f)).map (fun m => capGet m.caps 1)
        = some (some "foo".data)) :
    (classifyOne f).category = FailureCategory.dependency ∧
    (classifyOne f).confidence = 0.90 ∧
    (classifyOne f).summary = "Missing module: foo".data := by
  obtain ⟨m, hm, hg⟩ : ∃ m, reSearch moduleNotFoundRE (classifierText f) = some m ∧
      capGet m.caps 1 = some "foo".data := by
    cases hmm : reSearch moduleNotFoundRE (classifierText f) with
    | none => rw [hmm] at hd; simp at hd
    | some m =>
      rw [hmm] at hd
      exact ⟨m, rfl, by simpa using hd⟩
  have hdep1 : scanPatterns (classifierText f) depPatterns
      = some (1, "Missing module: {0}".data, m) := by
    rw [show depPatterns
          = (moduleNotFoundRE, 1, "Missing module: {0}".data) :: depPatterns.tail from rfl]
    exact scanPatterns_cons_some hm
  have hscan : scanRules (classifierText f) rulesList
      = some (FailureCategory.dependency, 0.90, 1, "Missing module: {0}".data, m) := by
    rw [show rulesList
          = (FailureCategory.syntax_error, (0.95 : ℚ), syntaxPatterns)
            :: (FailureCategory.dependency, (0.90 : ℚ), depPatterns)
            :: rulesList.tail.tail from rfl]
    rw [scanRules_cons_none hs]
    exact scanRules_cons_some hdep1
  have hgroups : (List.range 1).map (fun i => (capGet m.caps (i + 1)).getD "None".data)
      = ["foo".data] := by
    rw [show List.range 1 = [0] from rfl]
    simp [hg]
  refine ⟨?_, ?_, ?_⟩
  · simp only [classifyOne, hscan]
  · simp only [classifyOne, hscan]
  · simp only [classifyOne, hscan, hgroups]
    decide

def c4GoodFailure : TestFailure :=
  { test_name := "t".data, file_path := [], line_number := none
    error_message := mnfText, full_output := [] }

theorem C4_module_not_found_witness :
    (classifyOne c4GoodFailure).category = FailureCategory.dependency ∧
    (classifyOne c4GoodFailure).confidence = 0.90 ∧
    (classifyOne c4GoodFailure).summary = "Missing module: foo".data :=
  C4_module_not_found c4GoodFailure (by decide) (by decide)

def c5Failure : TestFailure :=
  { test_name := "t".data, file_path := [], line_number := none
    error_message := "SyntaxError: bad".data
    full_output := "ImportError: nope\nAssertionError: assert 1 == 2".data }

/-- C5 counterexample: a failure whose text contains both a
dependency-pattern substring and an assertion-pattern substring but also
a syntax-error substring is classified as `syntax_error`, not as the
dependency category the claim promises. -/
theorem C5_counterexample :
    (scanPatterns (classifierText c5Failure) depPatterns).isSome = true ∧
    (scanPatterns (classifierText c5Failure) assertionPatterns).isSome = true ∧
    (classifyOne c5Failure).category = FailureCategory.syntax_error ∧
    (classifyOne c5Failure).category ≠ FailureCategory.dependency :=
  ⟨by decide, by decide, by decide, by decide⟩

/-- C5 (amended): when the text matches some dependency pattern (whether
or not an assertion pattern also matches), the assigned category is
`syntax_error` or `dependency` — never `assertion` — and it is exactly
`dependency` when no syntax-error pattern matches. -/
theorem C5_dependency_over_assertion (f : TestFailure)
    (hdep : (scanPatterns (classifierText f) depPatterns).isSome = true)
    (hassert : (scanPatterns (classifierText f) assertionPatterns).isSome = true) :
    ((classifyOne f).category = FailureCategory.syntax_error ∨
      (classifyOne f).category = FailureCategory.dependency) ∧
    (classifyOne f).category ≠ FailureCategory.assertion ∧
    (scanPatterns (classifierText f) syntaxPatterns = none →
      (classifyOne f).category = FailureCategory.dependency) := by
  have hrules : rulesList
      = (FailureCategory.syntax_error, (0.95 : ℚ), syntaxPatterns)
        :: (FailureCategory.dependency, (0.90 : ℚ), depPatterns)
        :: rulesList.tail.tail := rfl
  cases hs : scanPatterns (classifierText f) syntaxPatterns with
  | some v =>
    obtain ⟨n, tmpl, m⟩ := v
    have hcat : (classifyOne f).category = FailureCategory.syntax_error := by
      have hscan : scanRules (classifierText f) rulesList
          = some (FailureCategory.syntax_error, 0.95, n, tmpl, m) := by
        rw [hrules]
        exact scanRules_cons_some hs
      simp only [classifyOne, hscan]
    refine ⟨Or.inl hcat, by simp [hcat], ?_⟩
    intro hh
    exact Option.noConfusion hh
  | none =>
    cases hd : scanPatterns (classifierText f) depPatterns with
    | none => rw [hd] at hdep; simp at hdep
    | some v =>
      obtain ⟨n, tmpl, m⟩ := v
      have hcat : (classifyOne f).category = FailureCategory.dependency := by
        have hscan : scanRules (classifierText f) rulesList
            = some (FailureCategory.dependency, 0.90, n, tmpl, m) := by
          rw [hrules, scanRules_cons_none hs]
          exact scanRules_cons_some hd
        simp only [classifyOne, hscan]
      exact ⟨Or.inr hcat, by simp [hcat], fun _ => hcat⟩

def c5GoodFailure : TestFailure :=
  { test_name := "t".data, file_path := [], line_number := none
    error_message := "ImportError: nope".data
    full_output := "AssertionError: assert 1 == 2".data }

theorem C5_dependency_over_assertion_witness :
    ((classifyOne c5GoodFailure).category = FailureCategory.syntax_error ∨
      (classifyOne c5GoodFailure).category = FailureCategory.dependency) ∧
    (classifyOne c5GoodFailure).category ≠ FailureCategory.assertion ∧
    (scanPatterns (classifierText c5GoodFailure) syntaxPatterns = none →
      (classifyOne c5GoodFailure).category = FailureCategory.dependency) :=
  C5_dependency_over_assertion c5GoodFailure (by decide) (by decide)

/-! ## Theorems about the patch extraction engine -/

def c2Response : Str :=
  [bqc, bqc, bqc] ++ "diff\n--- a/foo.py\n+++ b/foo.py\n@@ -1,1 +1,1 @@\n-a\n+b\n".data
    ++ [bqc, bqc, bqc]

/-- C2 counterexample: a response with no `FILE:` block but one tagged
diff block makes strategy 2 emit a FileChange whose original and
modified contents are both empty, so
`modified_content.strip() != original_content.strip()` fails. -/
theorem C2_counterexample :
    (parseResponse c2Response [] (fun _ _ => 0)).map
        (fun c => (c.file_path, pyStrip c.modified_content == pyStrip c.original_content))
      = [("foo.py".data, true)] := by decide

/-- C2 (amended): every FileChange emitted by strategy 1 satisfies
`modified_content.strip() != original_content.strip()`, and a response
whose `FILE:` blocks all carry content strip-equal to the project file
and which contains no diff-tagged and no language-tagged fenced block
yields zero FileChange entries; strategies 2 and 3 do not maintain the
strip-inequality invariant. -/
theorem C2_strategy1_invariant :
    (∀ (raw : Str) (files : List (Str × Str)) (c : FileChange),
        c ∈ strategy1 raw files →
        pyStrip c.modified_content ≠ pyStrip c.original_content) ∧
    (∀ (raw : Str) (files : List (Str × Str)) (sim : Str → Str → ℚ),
        (∀ m ∈ reFindAll filePatternRE raw,
            pyStrip ((capGet m.caps 2).getD [])
              = pyStrip ((lookupFile files
                  (stripChar '*' (pyStrip ((capGet m.caps 1).getD [])))).getD [])) →
        reFindAll diffBlockRE raw = [] →
        reFindAll codeBlockRE raw = [] →
        parseResponse raw files sim = []) := by
  constructor
  · intro raw files c hc
    simp only [strategy1, List.mem_filterMap] at hc
    obtain ⟨m, _, hsome⟩ := hc
    by_cases h : (pyStrip ((capGet m.caps 2).getD [])
        == pyStrip ((lookupFile files
            (stripChar '*' (pyStrip ((capGet m.caps 1).getD [])))).getD [])) = true
    · rw [if_pos h] at hsome
      exact Option.noConfusion hsome
    · rw [if_neg h] at hsome
      obtain rfl := (Option.some.injEq _ _).mp hsome.symm
      intro he
      exact h (beq_iff_eq.mpr he)
  · intro raw files sim hall hdiff hcode
    have h1 : strategy1 raw files = [] := by
      unfold strategy1
      rw [List.filterMap_eq_nil_iff]
      intro m hm
      rw [if_pos (beq_iff_eq.mpr (hall m hm))]
    have h2 : strategy2 raw = [] := by
      unfold strategy2
      rw [hdiff]
      rfl
    have h3 : strategy3 raw files sim = [] := by
      unfold strategy3
      rw [hcode]
      rfl
    unfold parseResponse
    rw [h1, h2, h3]
    rfl

def c2NoOpResponse : Str :=
  "FILE: a.py\n".data ++ [bqc, bqc, bqc] ++ "\nsame\n".data ++ [bqc, bqc, bqc]

def c2Files : List (Str × Str) := [("a.py".data, "same\n".data)]

def c2ChangedResponse : Str :=
  "FILE: a.py\n".data ++ [bqc, bqc, bqc] ++ "\nnew\n".data ++ [bqc, bqc, bqc]

def c2Change : FileChange :=
  { file_path := "a.py".data, original_content := "same\n".data
    modified_content := "new\n".data
    diff := makeDiff "a.py".data "same\n".data "new\n".data }

theorem C2_strategy1_invariant_witness :
    pyStrip c2Change.modified_content ≠ pyStrip c2Change.original_content ∧
    parseResponse c2NoOpResponse c2Files (fun _ _ => 0) = [] :=
  ⟨C2_strategy1_invariant.1 c2ChangedResponse c2Files c2Change (by decide),
   C2_strategy1_invariant.2 c2NoOpResponse c2Files (fun _ _ => 0)
     (by decide) (by decide) (by decide)⟩

/-- C8: the diff produced by `_make_diff` cannot be applied back.
`difflib.unified_diff` is called with `lineterm=""` and its lines are
joined with `"".join(...)`, so the two file-header lines and the hunk
header are glued into a single line; a standard unified-diff applier
rejects the text (first conjunct exhibits the glued text, second its
rejection).  With the line terminator the header lines should carry
(`"\n"`), the same hunk content applies back exactly, reproducing
`modified_content` — the claim describes the evident intent. -/
theorem C8_diff_roundtrip_fails :
    makeDiff "f.py".data "a\n".data "b\n".data
        = "--- a/f.py+++ b/f.py@@ -1,1 +1,1 @@-a\n+b\n".data ∧
    applyUnifiedDiff (makeDiff "f.py".data "a\n".data "b\n".data) "a\n".data = none ∧
    applyUnifiedDiff
        ((unifiedDiffLines "a/f.py".data "b/f.py".data
            (pySplitKeep "a\n".data) (pySplitKeep "b\n".data) "\n".data).flatten)
        "a\n".data = some "b\n".data :=
  ⟨by decide, by decide, by decide⟩

/-! ## Theorems about the explanation extractor

Supporting lemmas: soundness facts about the matcher (`searchFrom_sound`,
`greedyFrom_cases`), and structure of `splitlines` / `strip` / `split`
needed to show the extractor's output is non-empty away from the
degenerate inputs. -/

theorem orElse_eq_some {α : Type} {x y : Option α} {v : α}
    (h : (x <|> y) = some v) : x = some v ∨ (x = none ∧ y = some v) := by
  cases x with
  | none => exact Or.inr ⟨rfl, by simpa using h⟩
  | some a => exact Or.inl (by simpa using h)

theorem litCI_branch {β : Type} {l : Str} {prev : Option Char} {s : Str} {caps : Caps}
    {k : Option Char → Str → Caps → Option β} {v : β}
    (h : mre (.litCI l) prev s caps k = some v) :
    ciIsPref l s = true ∧
      k (pushPrev prev (s.take l.length)) (s.drop l.length) caps = some v := by
  simp only [mre] at h
  by_cases hc : ciIsPref l s = true
  · rw [if_pos hc] at h
    exact ⟨hc, h⟩
  · rw [if_neg hc] at h
    cases h

theorem greedyFrom_cases {β : Type} {k : Option Char → Str → Caps → Option β}
    {prev : Option Char} {s : Str} {caps : Caps} {lo : Nat} :
    ∀ {cnt : Nat} {v : β}, greedyFrom k prev s caps lo cnt = some v →
      ∃ i, lo ≤ i ∧ i ≤ lo + cnt ∧ takeK k prev s caps i = some v := by
  intro cnt
  induction cnt with
  | zero =>
    intro v h
    rw [greedyFrom] at h
    exact ⟨lo, le_rfl, by omega, h⟩
  | succ n ih =>
    intro v h
    rw [greedyFrom] at h
    rcases orElse_eq_some h with h1 | ⟨_, h2⟩
    · exact ⟨lo + n + 1, by omega, by omega, h1⟩
    · obtain ⟨i, hi1, hi2, hi3⟩ := ih h2
      exact ⟨i, hi1, by omega, hi3⟩

theorem runLen_le (c : CC) : ∀ s : Str, runLen c s ≤ s.length := by
  intro s
  induction s with
  | nil => simp [runLen]
  | cons a t ih =>
    rw [runLen]
    split_ifs <;> simp <;> omega

theorem plusG_branch {β : Type} {c : CC} {prev : Option Char} {s : Str} {caps : Caps}
    {k : Option Char → Str → Caps → Option β} {v : β}
    (h : mre (.plusG c) prev s caps k = some v) :
    ∃ i, 1 ≤ i ∧ i ≤ runLen c s ∧ takeK k prev s caps i = some v := by
  simp only [mre] at h
  cases hr : runLen c s with
  | zero => rw [hr] at h; cases h
  | succ n =>
    rw [hr] at h
    obtain ⟨i, h1, h2, h3⟩ := greedyFrom_cases h
    exact ⟨i, h1, by omega, h3⟩

theorem ciIsPref_cons {p : Char} {ps s : Str} (h : ciIsPref (p :: ps) s = true) :
    ∃ c cs, s = c :: cs ∧ (p.toLower == c.toLower) = true := by
  cases s with
  | nil => simp [ciIsPref] at h
  | cons c cs =>
    simp only [ciIsPref, Bool.and_eq_true] at h
    exact ⟨c, cs, rfl, h.1⟩

theorem ciIsPref_length {l : Str} : ∀ {s : Str}, ciIsPref l s = true → l.length ≤ s.length := by
  induction l with
  | nil => intro s _; simp
  | cons p ps ih =>
    intro s h
    obtain ⟨c, cs, rfl, -⟩ := ciIsPref_cons h
    simp only [ciIsPref, Bool.and_eq_true] at h
    have := ih h.2
    simp only [List.length_cons]
    omega

theorem ws_toLower_self {c : Char} (h : wsChar c = true) : c.toLower = c := by
  simp only [wsChar, Bool.or_eq_true, beq_iff_eq] at h
  rcases h with ((((h | h) | h) | h) | h) | h <;> (subst h; decide)

theorem not_ws_of_ci_head {c p : Char} (hp : (p.toLower == c.toLower) = true)
    (hpl : wsChar p.toLower = false) : wsChar c = false := by
  by_contra hc
  have hc' : wsChar c = true := by revert hc; cases wsChar c <;> simp
  have hcl : c.toLower = c := ws_toLower_self hc'
  rw [beq_iff_eq, hcl] at hp
  rw [hp, hc'] at hpl
  cases hpl

theorem searchFrom_sound (r : RE) {m : MRes} :
    ∀ (prev : Option Char) (s : Str) (pos : Nat),
      searchFrom r prev s pos = some m →
      ∃ prev2 s2, (mre r prev2 s2 [] (fun _ rest caps => some (rest, caps))
          = some (m.rest, m.caps))
        ∧ m.mat = s2.take (s2.length - m.rest.length) := by
  intro prev s
  induction s generalizing prev with
  | nil =>
    intro pos h
    rw [searchFrom] at h
    cases hm : mre r prev [] [] (fun _ rest caps => some (rest, caps)) with
    | none => rw [hm] at h; cases h
    | some rc =>
      obtain ⟨rest, caps⟩ := rc
      rw [hm] at h
      obtain rfl := (Option.some.injEq _ _).mp h.symm
      exact ⟨prev, [], hm, rfl⟩
  | cons a t ih =>
    intro pos h
    rw [searchFrom] at h
    cases hm : mre r prev (a :: t) [] (fun _ rest caps => some (rest, caps)) with
    | none => rw [hm] at h; exact ih (some a) (pos + 1) h
    | some rc =>
      obtain ⟨rest, caps⟩ := rc
      rw [hm] at h
      obtain rfl := (Option.some.injEq _ _).mp h.symm
      exact ⟨prev, a :: t, hm, rfl⟩

theorem marker2_branch_aux {l : Str} {p : Char} {ps : Str} (hl : l = p :: ps)
    (hplow : wsChar p.toLower = false)
    {prev2 : Option Char} {s2 : Str} {val : Str × Caps}
    (h : mre (.litCI l) prev2 s2 []
        (fun p2 rest c2 => mre (.plusG .anyCh) p2 rest c2
          (fun _ rest caps => some (rest, caps))) = some val) :
    ∃ c cs, s2 = c :: cs ∧ wsChar c = false ∧ val.1.length < s2.length := by
  obtain ⟨hci, hk⟩ := litCI_branch h
  have hk2 : mre (.plusG .anyCh) (pushPrev prev2 (s2.take l.length))
      (s2.drop l.length) [] (fun _ rest caps => some (rest, caps)) = some val := hk
  obtain ⟨i, hi1, hi2, hk3⟩ := plusG_branch hk2
  have hval : val = ((s2.drop l.length).drop i, []) :=
    ((Option.some.injEq _ _).mp hk3).symm
  subst hl
  obtain ⟨c, cs, rfl, hlow⟩ := ciIsPref_cons hci
  have hlen : (p :: ps).length ≤ (c :: cs).length := ciIsPref_length hci
  have hrun := runLen_le CC.anyCh ((c :: cs).drop (p :: ps).length)
  refine ⟨c, cs, rfl, not_ws_of_ci_head hlow hplow, ?_⟩
  rw [hval]
  simp only [List.length_drop, List.length_cons] at *
  omega

theorem marker2_head {raw : Str} {m : MRes} (h : reSearch marker2RE raw = some m) :
    ∃ c t, m.mat = c :: t ∧ wsChar c = false := by
  obtain ⟨prev2, s2, hm, hmat⟩ := searchFrom_sound marker2RE none raw 0 h
  have hm5 :
      (mre (.litCI "I changed".data) prev2 s2 []
        (fun p2 rest c2 => mre (.plusG .anyCh) p2 rest c2
          (fun _ rest caps => some (rest, caps)))
      <|> (mre (.litCI "I fixed".data) prev2 s2 []
        (fun p2 rest c2 => mre (.plusG .anyCh) p2 rest c2
          (fun _ rest caps => some (rest, caps)))
      <|> (mre (.litCI "The fix".data) prev2 s2 []
        (fun p2 rest c2 => mre (.plusG .anyCh) p2 rest c2
          (fun _ rest caps => some (rest, caps)))
      <|> (mre (.litCI "This fixes".data) prev2 s2 []
        (fun p2 rest c2 => mre (.plusG .anyCh) p2 rest c2
          (fun _ rest caps => some (rest, caps)))
      <|> mre (.litCI "The issue".data) prev2 s2 []
        (fun p2 rest c2 => mre (.plusG .anyCh) p2 rest c2
          (fun _ rest caps => some (rest, caps))))))) = some (m.rest, m.caps) := hm
  have key : ∃ c cs, s2 = c :: cs ∧ wsChar c = false
      ∧ (m.rest, m.caps).1.length < s2.length := by
    rcases orElse_eq_some hm5 with h1 | ⟨-, hr1⟩
    · exact marker2_branch_aux rfl (by decide) h1
    rcases orElse_eq_some hr1 with h2 | ⟨-, hr2⟩
    · exact marker2_branch_aux rfl (by decide) h2
    rcases orElse_eq_some hr2 with h3 | ⟨-, hr3⟩
    · exact marker2_branch_aux rfl (by decide) h3
    rcases orElse_eq_some hr3 with h4 | ⟨-, h5⟩
    · exact marker2_branch_aux rfl (by decide) h4
    · exact marker2_branch_aux rfl (by decide) h5
  obtain ⟨c, cs, rfl, hws, hlt⟩ := key
  refine ⟨c, cs.take ((c :: cs).length - m.rest.length - 1), ?_, hws⟩
  rw [hmat]
  have hpos : 1 ≤ (c :: cs).length - m.rest.length := by
    simp only [List.length_cons] at *
    omega
  cases hn : (c :: cs).length - m.rest.length with
  | zero => omega
  | succ k =>
    simp only [List.take_succ_cons]
    refine congrArg (c :: ·) (congrArg cs.take ?_)
    omega

theorem dropWhile_head_false {p : Char → Bool} :
    ∀ {l : Str} {c : Char} {t : Str}, l.dropWhile p = c :: t → p c = false := by
  intro l
  induction l with
  | nil => intro c t h; cases h
  | cons a l ih =>
    intro c t h
    rw [List.dropWhile_cons] at h
    by_cases hp : p a = true
    · rw [if_pos hp] at h
      exact ih h
    · rw [if_neg hp] at h
      obtain ⟨rfl, -⟩ := List.cons.injEq _ _ _ _ ▸ h
      exact Bool.not_eq_true _ ▸ hp

theorem pyStrip_getLast?_not_ws {s : Str} {c : Char}
    (h : (pyStrip s).getLast? = some c) : wsChar c = false := by
  unfold pyStrip at h
  rw [List.getLast?_reverse] at h
  cases hw : (s.dropWhile wsChar).reverse.dropWhile wsChar with
  | nil => rw [hw] at h; cases h
  | cons d u =>
    rw [hw] at h
    obtain rfl : d = c := by simpa using h
    exact dropWhile_head_false hw

theorem pyStrip_head_not_ws {s : Str} {c : Char} {t : Str}
    (h : pyStrip s = c :: t) : wsChar c = false := by
  unfold pyStrip at h
  have hhead : ((s.dropWhile wsChar).reverse.dropWhile wsChar).reverse.head? = some c := by
    rw [h]; rfl
  rw [List.head?_reverse] at hhead
  have hsuf : ((s.dropWhile wsChar).reverse.dropWhile wsChar)
      <:+ (s.dropWhile wsChar).reverse := List.dropWhile_suffix wsChar
  obtain ⟨pre, hpre⟩ := hsuf
  have hg : ((s.dropWhile wsChar).reverse).getLast? = some c := by
    rw [← hpre, List.getLast?_append, hhead]
    rfl
  rw [List.getLast?_reverse] at hg
  cases hd : s.dropWhile wsChar with
  | nil => rw [hd] at hg; cases hg
  | cons d u =>
    rw [hd] at hg
    obtain rfl : d = c := by simpa using hg
    exact dropWhile_head_false hd

theorem pyStrip_cons_ne_nil {c : Char} {t : Str} (h : wsChar c = false) :
    pyStrip (c :: t) ≠ [] := by
  unfold pyStrip
  rw [List.dropWhile_cons, if_neg (by simp [h])]
  intro hz
  rw [List.reverse_eq_nil_iff, List.dropWhile_eq_nil_iff] at hz
  have hc : c ∈ (c :: t).reverse := by simp
  have := hz c hc
  rw [h] at this
  cases this

theorem pySplitlinesGo_head (s : Str) : ∀ (cur : Str), cur ≠ [] →
    ∃ l rest, pySplitlinesGo cur s = (cur.reverse ++ l) :: rest := by
  induction s with
  | nil =>
    intro cur hc
    refine ⟨[], [], ?_⟩
    rw [pySplitlinesGo, if_neg (by simpa using hc)]
    simp
  | cons a t ih =>
    intro cur hc
    rw [pySplitlinesGo]
    by_cases ha : (a == '\n') = true
    · rw [if_pos ha]
      exact ⟨[], _, by rw [List.append_nil]⟩
    · rw [if_neg ha]
      obtain ⟨l, rest, hgo⟩ := ih (a :: cur) (by simp)
      exact ⟨[a] ++ l, rest, by rw [hgo]; simp⟩

theorem pySplitlines_cons {c : Char} {t : Str} (hn : c ≠ '\n') :
    ∃ l rest, pySplitlines (c :: t) = (c :: l) :: rest := by
  unfold pySplitlines
  rw [pySplitlinesGo, if_neg (by simpa using hn)]
  obtain ⟨l, rest, hgo⟩ := pySplitlinesGo_head t [c] (by simp)
  exact ⟨l, rest, by rw [hgo]; rfl⟩

theorem firstTenLines_ne_nil {t : Str} (h : pyStrip t ≠ []) : firstTenLines t ≠ [] := by
  unfold firstTenLines
  obtain ⟨c, u, hcu⟩ : ∃ c u, pyStrip t = c :: u := by
    cases hp : pyStrip t with
    | nil => exact absurd hp h
    | cons c u => exact ⟨c, u, rfl⟩
  have hws : wsChar c = false := pyStrip_head_not_ws hcu
  have hn : c ≠ '\n' := by intro he; subst he; simp [wsChar] at hws
  rw [hcu]
  obtain ⟨l, rest, hsp⟩ : ∃ l rest, pySplitlines (c :: u) = (c :: l) :: rest :=
    pySplitlines_cons hn
  rw [hsp, List.take_succ_cons]
  cases htake : rest.take 9 with
  | nil => simp [joinSep]
  | cons y ys => simp [joinSep]

theorem isPref_decomp {p : Str} : ∀ {s : Str}, isPref p s = true → s = p ++ s.drop p.length := by
  induction p with
  | nil => intro s _; simp
  | cons a q ih =>
    intro s h
    cases s with
    | nil => cases h
    | cons b t =>
      simp only [isPref, Bool.and_eq_true, beq_iff_eq] at h
      obtain ⟨rfl, h2⟩ := h
      simpa [List.length_cons, List.drop_succ_cons] using congrArg (a :: ·) (ih h2)

theorem findSub_sound {sep : Str} : ∀ {s b a : Str},
    findSub sep s = some (b, a) → s = b ++ sep ++ a := by
  intro s
  induction s with
  | nil =>
    intro b a h
    rw [findSub] at h
    by_cases hse : sep.isEmpty
    · rw [if_pos hse] at h
      obtain ⟨rfl, rfl⟩ := Prod.mk.injEq _ _ _ _ ▸ (Option.some.injEq _ _).mp h.symm
      simp_all [List.isEmpty_iff]
    · rw [if_neg hse] at h
      cases h
  | cons c t ih =>
    intro b a h
    rw [findSub] at h
    by_cases hp : isPref sep (c :: t) = true
    · rw [if_pos hp] at h
      obtain ⟨rfl, rfl⟩ := Prod.mk.injEq _ _ _ _ ▸ (Option.some.injEq _ _).mp h.symm
      simpa using isPref_decomp hp
    · rw [if_neg hp] at h
      cases hf : findSub sep t with
      | none => rw [hf] at h; cases h
      | some pr =>
        obtain ⟨b2, a2⟩ := pr
        rw [hf] at h
        obtain ⟨rfl, rfl⟩ := Prod.mk.injEq _ _ _ _ ▸ (Option.some.injEq _ _).mp h.symm
        have := ih hf
        simp [this]

theorem getLast?_cons_of_ne_nil {α : Type} {x : α} {l : List α} (h : l ≠ []) :
    (x :: l).getLast? = l.getLast? := by
  cases l with
  | nil => exact absurd rfl h
  | cons y t => exact List.getLast?_cons_cons

theorem splitSubF_last (fuel : Nat) : ∀ {s : Str} {c : Char},
    s.getLast? = some c → wsChar c = false →
    ∃ p, (splitSubF "\n\n".data fuel s).getLast? = some p ∧ p ≠ [] := by
  induction fuel with
  | zero =>
    intro s c hl hw
    refine ⟨s, by rw [splitSubF]; rfl, ?_⟩
    intro hz
    subst hz
    cases hl
  | succ n ih =>
    intro s c hl hw
    rw [splitSubF]
    cases hf : findSub "\n\n".data s with
    | none =>
      refine ⟨s, rfl, ?_⟩
      intro hz
      subst hz
      cases hl
    | some pr =>
      obtain ⟨b, a⟩ := pr
      have hs := findSub_sound hf
      have ha : a ≠ [] := by
        intro hz
        subst hz
        rw [hs] at hl
        rw [List.append_nil, List.getLast?_append] at hl
        obtain rfl : '\n' = c := by simpa using hl
        simp [wsChar] at hw
      have hal : a.getLast? = some c := by
        rw [hs, List.getLast?_append, List.getLast?_append] at hl
        cases hga : a.getLast? with
        | none => exact absurd (List.getLast?_eq_none_iff.mp hga) ha
        | some d =>
          rw [hga] at hl
          obtain rfl : d = c := by simpa using hl
          rfl
      obtain ⟨p, hp1, hp2⟩ := ih hal hw
      refine ⟨p, ?_, hp2⟩
      rw [getLast?_cons_of_ne_nil (by
        intro hz
        have := hp1
        rw [hz] at this
        cases this)]
      exact hp1

/-- C9 counterexample: the non-empty response consisting of the marker
word `summary:` followed by whitespace-only text makes the extractor
return the empty string. -/
theorem C9_counterexample :
    ("summary:\n  ".data ≠ ([] : Str)) ∧ extractExplanation "summary:\n  ".data = [] :=
  ⟨by decide, by decide⟩

/-- C9 (amended): the explanation extractor returns a non-empty string
for every response that contains a non-whitespace character, except when
the first marker pattern matches with a captured remainder that strips
to nothing (as in the counterexample); inputs that are empty or
whitespace-only yield the empty string. -/
theorem C9_explanation_nonempty (raw : Str) (hne : pyStrip raw ≠ [])
    (hmk : ∀ m, reSearch marker1RE raw = some m →
        pyStrip ((capGet m.caps 1).getD []) ≠ []) :
    extractExplanation raw ≠ [] := by
  unfold extractExplanation
  cases h1 : reSearch marker1RE raw with
  | some m => exact firstTenLines_ne_nil (hmk m h1)
  | none =>
    cases h2 : reSearch marker2RE raw with
    | some m =>
      obtain ⟨c, t2, hmat, hws⟩ := marker2_head h2
      apply firstTenLines_ne_nil
      rw [hmat]
      exact pyStrip_cons_ne_nil hws
    | none =>
      obtain ⟨c2, hlast⟩ : ∃ c2, (pyStrip raw).getLast? = some c2 := by
        cases hgl : (pyStrip raw).getLast? with
        | none => exact absurd (List.getLast?_eq_none_iff.mp hgl) hne
        | some c2 => exact ⟨c2, rfl⟩
      have hw := pyStrip_getLast?_not_ws hlast
      obtain ⟨p, hp1, hp2⟩ :=
        splitSubF_last ((pyStrip raw).length + 1) hlast hw
      unfold splitSub
      rw [hp1]
      cases p with
      | nil => exact absurd rfl hp2
      | cons a q => simp

theorem C9_explanation_nonempty_witness :
    extractExplanation "The fix works.".data ≠ [] :=
  C9_explanation_nonempty "The fix works.".data (by decide)
    (fun m hm => by
      rw [show reSearch marker1RE "The fix works.".data = none from by decide] at hm
      cases hm)
